import Mathlib

/-!
# Atomic swap LockTx: a shallow embedding of `wallet/swap_transaction.cpp`

The development follows the source file function by function.

* Scalars `Sc` and curve points `Pt` are kept abstract: `Sc` is a commutative
  ring, `Pt` an additive commutative group on which scalars act, and the two
  generators `G`, `H` of `ECC::Context` are fields of the environment.
* The parameter store is a total map from `(SubTxID, TxParameterID)` to an
  optional typed value; `GetParameter<T>` leaves its out-argument untouched
  when the key is absent, `GetMandatoryParameter<T>` throws.
* Everything the transaction does to the outside world (store writes, gateway
  sends, `OnFailed`, status updates, coins generated in the wallet database) is
  appended to an ordered trace.
* Methods of `BaseTxBuilder`, the wallet database, the gateway and the
  range-proof primitives are not part of this file of the repository; they
  are fields of `Env`, arbitrary functions of what they can read. A method of
  the base builder may change the builder, persist values under parameter ids
  of its own, and throw.
* `assert`s are compiled out (release build) and are not modelled.
-/

namespace Beam.Wallet

/-! ## Data model -/

/-- Modelled from the spec: the `State` enumeration of the LockTx sub-transaction
(declared in `swap_transaction.h`, which is not among the sources). The values
are those of the spec's data model, in its order. -/
inductive State
  | Initial
  | Invitation
  | SharedUTXOProofPart2
  | SharedUTXOProofPart3
  | KernelConfirmation
  | Completed
  | Failed
  deriving DecidableEq, Repr

/-- Modelled from the spec: sub-transaction tags. `Default` is the key used when
no sub-transaction is given (`kDefaultSubTxID`). -/
inductive SubTxID
  | Default
  | LOCK_TX
  | REFUND_TX
  | REDEEM_TX
  deriving DecidableEq, Repr

/-- Modelled from the spec: the parameter ids the core requires (the enumeration
itself lives in a header that is not among the sources), and the ids
`Builder k` under which the base builder persists the outputs of its own
steps (inputs, outputs, offset, kernel and the like), which this file neither
reads nor writes. -/
inductive TxParameterID
  | IsSender
  | Amount
  | Fee
  | AtomicSwapAmount
  | AtomicSwapCoin
  | MinHeight
  | State
  | SubTxIndex
  | PeerProtoVersion
  | PeerPublicExcess
  | PeerPublicNonce
  | PeerSignature
  | PeerOffset
  | PeerPublicSharedBlindingFactor
  | PeerSharedBulletProofPart2
  | PeerSharedBulletProofPart3
  | PeerSharedBulletProofMSig
  | SharedBlindingFactor
  | SharedSeed
  | SharedCoinID
  | SharedBulletProof
  | Builder (k : Nat)
  deriving DecidableEq, Repr

/-- Failure reasons handed to `OnFailed` (spec, section 7). -/
inductive TxFailureReason
  | FailedToSendParameters
  | TransactionExpired
  | InvalidPeerSignature
  | SizeOverflow
  | InvalidTransaction
  deriving DecidableEq, Repr

/-- Transaction status shown to the user; only `InProgress` is set here. -/
inductive TxStatus
  | InProgress
  deriving DecidableEq, Repr

/-- Amounts and heights are 64-bit unsigned integers in the source. The swap
transaction does no arithmetic on them; where the wallet client adds and
subtracts them the wrap-around modulo `2^64` is written out. -/
abbrev Amount := Nat

/-- Counter-chain coin tag (`AtomicSwapCoin`), an enumeration kept as its code. -/
abbrev AtomicSwapCoin := Nat

/-- Coin identifier `Key::IDV`. -/
structure IDV where
  m_Idx : Nat
  m_SubIdx : Nat
  m_Type : Nat
  m_Value : Amount
  deriving DecidableEq, Repr

/-- A wallet coin; only its identifier is used here. -/
structure Coin where
  m_ID : IDV
  deriving DecidableEq, Repr

/-- The shared range proof `ECC::RangeProof::Confidential`: the two parts this
file reads and writes, and everything else. -/
structure Confidential where
  m_Part2 : Nat
  m_Part3 : Nat
  m_Other : Nat
  deriving DecidableEq, Repr

/-- Range proof creator parameters. -/
structure CreatorParams where
  m_Kidv : IDV
  m_Seed : Nat
  deriving DecidableEq, Repr

/-- A typed parameter value. -/
inductive Value (Sc Pt : Type)
  | bool (b : Bool)
  | amount (a : Amount)
  | state (s : State)
  | subTx (i : SubTxID)
  | swapCoin (c : AtomicSwapCoin)
  | protoVersion (v : Nat)
  | scalar (k : Sc)
  | point (p : Pt)
  | seed (u : Nat)
  | coinID (k : IDV)
  | proof (p : Confidential)
  | part2 (p : Nat)
  | part3 (p : Nat)
  | msig (m : Nat)
  deriving DecidableEq, Repr

/-- The parameter store of one transaction id. -/
abbrev Store (Sc Pt : Type) := SubTxID → TxParameterID → Option (Value Sc Pt)

/-- A peer message `SetTxParameter`: the parameters in the order they were added. -/
abbrev SetTxParameter (Sc Pt : Type) := List (TxParameterID × Value Sc Pt)

/-- One externally visible effect of the transaction. -/
inductive Effect (Sc Pt : Type)
  | setParameter (id : TxParameterID) (v : Value Sc Pt) (sub : SubTxID)
  | send (msg : SetTxParameter Sc Pt)
  | onFailed (reason : TxFailureReason) (notify : Bool)
  | updateTxDescription (s : TxStatus)
  | generateSharedCoin (amount : Amount)
  deriving DecidableEq, Repr

/-- A transaction output. -/
structure Output (Pt : Type) where
  m_Commitment : Pt
  m_pConfidential : Option Confidential
  deriving DecidableEq, Repr

/-- The assembled transaction handed to `IsValid`. -/
structure Transaction (Sc Pt : Type) where
  m_Outputs : List (Output Pt)
  m_Offset : Sc
  deriving DecidableEq, Repr

/-- The members of `BaseTxBuilder` that this file reads or writes, together
with the values its getters return. -/
structure BaseTxBuilder (Sc Pt : Type) where
  m_Amount : Amount
  m_Fee : Amount
  m_MinHeight : Amount
  m_Offset : Sc
  m_PeerOffset : Sc
  m_PublicExcess : Pt
  m_PublicNonce : Pt
  m_PartialSignature : Sc
  m_Outputs : List (Output Pt)
  deriving DecidableEq, Repr

/-- What one call of a base-builder method does: the builder it leaves, the
values it persists under ids of its own, in order, and whether it threw. -/
structure BaseStep (Sc Pt : Type) where
  b : BaseTxBuilder Sc Pt
  persisted : List (Nat × Value Sc Pt)
  threw : Bool

/-- The shared-output builder of one `UpdateImpl` call. -/
structure LockTxBuilder (Sc Pt : Type) extends BaseTxBuilder Sc Pt where
  m_SharedBlindingFactor : Sc
  m_SharedSeed : Nat
  m_SharedCoin : Coin
  m_SharedProof : Confidential
  m_ProofPartialMultiSig : Nat
  m_CreatorParams : Option CreatorParams
  deriving DecidableEq, Repr

/-- Builder methods, for the ghost log of calls made during one update. -/
inductive BuilderCall
  | GetInitialTxParams
  | SelectInputs
  | AddChangeOutput
  | FinalizeOutputs
  | CreateKernel
  | LoadSharedParameters
  | SignPartial
  | SharedUTXOProofPart2
  | LoadPeerOffset
  | SharedUTXOProofPart3
  | IsPeerSignatureValid
  | FinalizeSignature
  | AddSharedOutput
  | CreateTransaction
  deriving DecidableEq, Repr

/-- The collaborators of this file that are not part of it: the curve
generators, the protocol version constant, the range-proof primitives, the
wallet database, the base builder's methods, the gateway and the chain tip as
seen by `CheckExpired`. -/
structure Env (Sc Pt : Type) where
  G : Pt
  H : Pt
  s_ProtoVersion : Nat
  generateSharedCoin : Amount → Coin
  switchCommitmentCreate : IDV → Sc
  GenerateSeed : Sc → Amount → Nat
  GenerateSeedKid : Pt → Nat
  CoSignStep2 : Confidential → Nat → Sc → CreatorParams → Confidential × Nat
  CoSignFinalize : Confidential → Nat → Sc → CreatorParams → Confidential
  CoSignPart2 : Nat → Nat → Nat
  CoSignPart3 : Nat → Nat → Sc → Nat → Nat
  GetInitialTxParams : Store Sc Pt → BaseTxBuilder Sc Pt → Bool × BaseStep Sc Pt
  SelectInputs : Store Sc Pt → BaseTxBuilder Sc Pt → BaseStep Sc Pt
  AddChangeOutput : Store Sc Pt → BaseTxBuilder Sc Pt → BaseStep Sc Pt
  FinalizeOutputs : Store Sc Pt → BaseTxBuilder Sc Pt → Bool × BaseStep Sc Pt
  CreateKernel : Store Sc Pt → BaseTxBuilder Sc Pt → BaseStep Sc Pt
  SignPartial : Store Sc Pt → BaseTxBuilder Sc Pt → BaseStep Sc Pt
  IsPeerSignatureValid : Store Sc Pt → BaseTxBuilder Sc Pt → Bool
  FinalizeSignature : Store Sc Pt → BaseTxBuilder Sc Pt → BaseStep Sc Pt
  CreateTransaction : BaseTxBuilder Sc Pt → Transaction Sc Pt
  IsValid : Transaction Sc Pt → Bool
  SendTxParameters : SetTxParameter Sc Pt → Bool
  expired : Bool

/-- The transaction object: its store and the ordered trace of its effects. -/
structure Tx (Sc Pt : Type) where
  store : Store Sc Pt
  trace : List (Effect Sc Pt)

/-- The transaction together with the builder local to one `UpdateImpl` call
and the ghost log of builder methods called so far. -/
structure Frame (Sc Pt : Type) where
  tx : Tx Sc Pt
  b : LockTxBuilder Sc Pt
  calls : List BuilderCall

/-- How a piece of code ends: falls through to the next statement, returns
from `UpdateImpl`, or throws. -/
inductive Flow (α : Type)
  | next (a : α)
  | done (a : α)
  | thrown (a : α)

/-- The state carried by a flow, however it ended. -/
def Flow.val {α : Type} : Flow α → α
  | .next a => a
  | .done a => a
  | .thrown a => a

/-- Sequencing: only a flow that fell through continues. -/
def Flow.andThen {α : Type} (r : Flow α) (k : α → Flow α) : Flow α :=
  match r with
  | .next a => k a
  | .done a => .done a
  | .thrown a => .thrown a

/-- Change of the carried state. -/
def Flow.map {α β : Type} (g : α → β) : Flow α → Flow β
  | .next a => .next (g a)
  | .done a => .done (g a)
  | .thrown a => .thrown (g a)

/-- Whether the flow ended by an exception. -/
def Flow.isThrown {α : Type} : Flow α → Bool
  | .thrown _ => true
  | _ => false

variable {Sc Pt : Type}

/-! ## Typed reads of the store -/

/-- Read a value as a boolean. -/
def Value.toBool? : Value Sc Pt → Option Bool
  | .bool b => some b
  | _ => none

/-- Read a value as an amount. -/
def Value.toAmount? : Value Sc Pt → Option Amount
  | .amount a => some a
  | _ => none

/-- Read a value as a state. -/
def Value.toState? : Value Sc Pt → Option State
  | .state s => some s
  | _ => none

/-- Read a value as a counter-chain coin. -/
def Value.toSwapCoin? : Value Sc Pt → Option AtomicSwapCoin
  | .swapCoin c => some c
  | _ => none

/-- Read a value as a scalar. -/
def Value.toScalar? : Value Sc Pt → Option Sc
  | .scalar k => some k
  | _ => none

/-- Read a value as a point. -/
def Value.toPoint? : Value Sc Pt → Option Pt
  | .point p => some p
  | _ => none

/-- Read a value as a seed. -/
def Value.toSeed? : Value Sc Pt → Option Nat
  | .seed u => some u
  | _ => none

/-- Read a value as a coin identifier. -/
def Value.toCoinID? : Value Sc Pt → Option IDV
  | .coinID k => some k
  | _ => none

/-- Read a value as a range proof. -/
def Value.toProof? : Value Sc Pt → Option Confidential
  | .proof p => some p
  | _ => none

/-- Read a value as a proof part 2. -/
def Value.toPart2? : Value Sc Pt → Option Nat
  | .part2 p => some p
  | _ => none

/-- Read a value as a proof part 3. -/
def Value.toPart3? : Value Sc Pt → Option Nat
  | .part3 p => some p
  | _ => none

/-- Read a value as a partial multi-signature. -/
def Value.toMSig? : Value Sc Pt → Option Nat
  | .msig m => some m
  | _ => none

/-- The call `GetParameter(id, out, sub)`: the stored value of the requested
type, if there is one. -/
def GetParameter {α : Type} (rd : Value Sc Pt → Option α) (st : Store Sc Pt)
    (id : TxParameterID) (sub : SubTxID) : Option α :=
  (st sub id).bind rd

/-- Upsert of one key of the store. -/
def Store.set (st : Store Sc Pt) (id : TxParameterID) (v : Value Sc Pt) (sub : SubTxID) :
    Store Sc Pt :=
  fun s i => if s = sub ∧ i = id then some v else st s i

/-- The call `SetParameter(id, value, sub)`: upsert, recorded in the trace. -/
def Tx.SetParameter (t : Tx Sc Pt) (id : TxParameterID) (v : Value Sc Pt) (sub : SubTxID) :
    Tx Sc Pt :=
  { store := t.store.set id v sub, trace := t.trace ++ [Effect.setParameter id v sub] }

/-- The values a base-builder step persists, written one after the other
under the builder's own ids of the lock transaction. -/
def Tx.persist (t : Tx Sc Pt) (ws : List (Nat × Value Sc Pt)) : Tx Sc Pt :=
  ws.foldl (fun t w => t.SetParameter (TxParameterID.Builder w.1) w.2 SubTxID.LOCK_TX) t

/-- Source lines 34-39: the stored state, `Initial` when none is stored. -/
def GetState (st : Store Sc Pt) (sub : SubTxID) : State :=
  (GetParameter Value.toState? st TxParameterID.State sub).getD State.Initial

/-- The call `SetState(state, sub)`: a write of the `State` parameter. -/
def Tx.SetState (t : Tx Sc Pt) (s : State) (sub : SubTxID) : Tx Sc Pt :=
  t.SetParameter TxParameterID.State (Value.state s) sub

/-- The call `OnFailed(reason, notify)`, reported through the gateway. -/
def Tx.OnFailed (t : Tx Sc Pt) (reason : TxFailureReason) (notify : Bool) : Tx Sc Pt :=
  { t with trace := t.trace ++ [Effect.onFailed reason notify] }

/-- The call `UpdateTxDescription(status)`. -/
def Tx.UpdateTxDescription (t : Tx Sc Pt) (s : TxStatus) : Tx Sc Pt :=
  { t with trace := t.trace ++ [Effect.updateTxDescription s] }

/-- The call `SendTxParameters(msg)`: the message is handed to the gateway,
whose verdict is returned. -/
def Tx.SendTxParameters (env : Env Sc Pt) (t : Tx Sc Pt) (msg : SetTxParameter Sc Pt) :
    Bool × Tx Sc Pt :=
  (env.SendTxParameters msg, { t with trace := t.trace ++ [Effect.send msg] })

/-- The call `GetWalletDB()->generateSharedCoin(amount)`: the wallet database
hands out a coin and the generation is recorded in the trace. -/
def Tx.generateSharedCoin (env : Env Sc Pt) (t : Tx Sc Pt) (amount : Amount) :
    Coin × Tx Sc Pt :=
  (env.generateSharedCoin amount,
    { t with trace := t.trace ++ [Effect.generateSharedCoin amount] })

/-- The call `msg.AddParameter(id, value)`. -/
def AddParameter (msg : SetTxParameter Sc Pt) (id : TxParameterID) (v : Value Sc Pt) :
    SetTxParameter Sc Pt :=
  msg ++ [(id, v)]

/-! ## The builder (`LockTxBuilder`, source lines 203-340) -/

/-- Source lines 203-206: a fresh builder over the amount and fee, every other
member zero. -/
def LockTxBuilder.new [Zero Sc] [Zero Pt] (amount fee : Amount) : LockTxBuilder Sc Pt :=
  { m_Amount := amount
    m_Fee := fee
    m_MinHeight := 0
    m_Offset := 0
    m_PeerOffset := 0
    m_PublicExcess := 0
    m_PublicNonce := 0
    m_PartialSignature := 0
    m_Outputs := []
    m_SharedBlindingFactor := 0
    m_SharedSeed := 0
    m_SharedCoin := { m_ID := { m_Idx := 0, m_SubIdx := 0, m_Type := 0, m_Value := 0 } }
    m_SharedProof := { m_Part2 := 0, m_Part3 := 0, m_Other := 0 }
    m_ProofPartialMultiSig := 0
    m_CreatorParams := none }

/-- The frame after a step of the base builder: what it persisted is in the
store, the base part of the builder is the one it left, and the call is noted
in the ghost log. -/
def Frame.after (f : Frame Sc Pt) (c : BuilderCall) (r : BaseStep Sc Pt) : Frame Sc Pt :=
  { tx := f.tx.persist r.persisted
    b := { f.b with toBaseTxBuilder := r.b }
    calls := f.calls ++ [c] }

/-- A step of the base builder: it falls through, or throws. -/
def Frame.step (f : Frame Sc Pt) (c : BuilderCall) (r : BaseStep Sc Pt) : Flow (Frame Sc Pt) :=
  if r.threw then Flow.thrown (f.after c r) else Flow.next (f.after c r)

/-- A method of the base builder called on the store and the base part of the
builder. -/
def Frame.base (f : Frame Sc Pt) (c : BuilderCall)
    (op : Store Sc Pt → BaseTxBuilder Sc Pt → BaseStep Sc Pt) : Flow (Frame Sc Pt) :=
  f.step c (op f.tx.store f.b.toBaseTxBuilder)

/-- A note in the ghost log. -/
def Frame.log (f : Frame Sc Pt) (c : BuilderCall) : Frame Sc Pt :=
  { f with calls := f.calls ++ [c] }

/-- Source lines 208-211. -/
def LoadPeerOffset (f : Frame Sc Pt) : Frame Sc Pt :=
  { f with
    b := { f.b with
      m_PeerOffset :=
        (GetParameter Value.toScalar? f.tx.store TxParameterID.PeerOffset SubTxID.LOCK_TX).getD
          f.b.m_PeerOffset } }

/-- Source lines 294-297. -/
def GetSharedSeed (b : LockTxBuilder Sc Pt) : Nat := b.m_SharedSeed

/-- Source lines 299-302. -/
def GetSharedBlindingFactor (b : LockTxBuilder Sc Pt) : Sc := b.m_SharedBlindingFactor

/-- Source lines 304-307. -/
def GetSharedProof (b : LockTxBuilder Sc Pt) : Confidential := b.m_SharedProof

/-- Source lines 309-312. -/
def GetProofPartialMultiSig (b : LockTxBuilder Sc Pt) : Nat := b.m_ProofPartialMultiSig

/-- Getter of the base builder. -/
def GetAmount (b : LockTxBuilder Sc Pt) : Amount := b.m_Amount

/-- Getter of the base builder. -/
def GetFee (b : LockTxBuilder Sc Pt) : Amount := b.m_Fee

/-- Getter of the base builder. -/
def GetMinHeight (b : LockTxBuilder Sc Pt) : Amount := b.m_MinHeight

/-- Getter of the base builder. -/
def GetOffset (b : LockTxBuilder Sc Pt) : Sc := b.m_Offset

/-- Getter of the base builder. -/
def GetPublicExcess (b : LockTxBuilder Sc Pt) : Pt := b.m_PublicExcess

/-- Getter of the base builder. -/
def GetPublicNonce (b : LockTxBuilder Sc Pt) : Pt := b.m_PublicNonce

/-- Getter of the base builder. -/
def GetPartialSignature (b : LockTxBuilder Sc Pt) : Sc := b.m_PartialSignature

section Curve

variable [CommRing Sc] [AddCommGroup Pt] [Module Sc Pt]

/-- Source lines 314-317: `Context::get().G * GetSharedBlindingFactor()`. -/
def GetPublicSharedBlindingFactor (env : Env Sc Pt) (b : LockTxBuilder Sc Pt) : Pt :=
  GetSharedBlindingFactor b • env.G

/-- Source lines 331-340. `Tag::AddValue(commitment, nullptr, v)` adds `v` times
the value generator `H`. The result is `none` when the mandatory peer share is
not in the store (the getter throws). -/
def GetSharedCommitment (env : Env Sc Pt) (st : Store Sc Pt) (b : LockTxBuilder Sc Pt) :
    Option Pt :=
  let commitment : Pt := 0
  let commitment := commitment + GetAmount b • env.H
  let commitment := commitment + GetPublicSharedBlindingFactor env b
  (GetParameter Value.toPoint? st TxParameterID.PeerPublicSharedBlindingFactor
      SubTxID.LOCK_TX).map fun peer => commitment + peer

/-- Source lines 319-329: memoised creator parameters; `none` when computing
the shared commitment throws. -/
def GetProofCreatorParams (env : Env Sc Pt) (st : Store Sc Pt) (b : LockTxBuilder Sc Pt) :
    Option (CreatorParams × LockTxBuilder Sc Pt) :=
  match b.m_CreatorParams with
  | some p => some (p, b)
  | none =>
    (GetSharedCommitment env st b).map fun c =>
      let creatorParams : CreatorParams :=
        { m_Kidv := b.m_SharedCoin.m_ID, m_Seed := env.GenerateSeedKid c }
      (creatorParams, { b with m_CreatorParams := some creatorParams })

/-- Source lines 213-232. -/
def SharedUTXOProofPart2 (env : Env Sc Pt) (shouldProduceMultisig : Bool) (f : Frame Sc Pt) :
    Flow (Frame Sc Pt) :=
  if shouldProduceMultisig then
    let b1 : LockTxBuilder Sc Pt :=
      { f.b with
        m_SharedProof :=
          { f.b.m_SharedProof with
            m_Part2 :=
              (GetParameter Value.toPart2? f.tx.store TxParameterID.PeerSharedBulletProofPart2
                SubTxID.LOCK_TX).getD f.b.m_SharedProof.m_Part2 } }
    match GetProofCreatorParams env f.tx.store b1 with
    | none => Flow.thrown { f with b := b1 }
    | some (params, b2) =>
      let r := env.CoSignStep2 b2.m_SharedProof (GetSharedSeed b2) (GetSharedBlindingFactor b2)
        params
      let b3 : LockTxBuilder Sc Pt :=
        { b2 with m_SharedProof := r.1, m_ProofPartialMultiSig := r.2 }
      Flow.next
        { f with
          tx := f.tx.SetParameter TxParameterID.SharedBulletProof (Value.proof b3.m_SharedProof)
            SubTxID.LOCK_TX
          b := b3 }
  else
    Flow.next
      { f with
        b := { f.b with
          m_SharedProof :=
            { f.b.m_SharedProof with m_Part2 := env.CoSignPart2 (GetSharedSeed f.b) 0 } } }

/-- Source lines 234-254. -/
def SharedUTXOProofPart3 (env : Env Sc Pt) (shouldProduceMultisig : Bool) (f : Frame Sc Pt) :
    Flow (Frame Sc Pt) :=
  if shouldProduceMultisig then
    let b1 : LockTxBuilder Sc Pt :=
      { f.b with
        m_SharedProof :=
          { f.b.m_SharedProof with
            m_Part3 :=
              (GetParameter Value.toPart3? f.tx.store TxParameterID.PeerSharedBulletProofPart3
                SubTxID.LOCK_TX).getD f.b.m_SharedProof.m_Part3 } }
    match GetProofCreatorParams env f.tx.store b1 with
    | none => Flow.thrown { f with b := b1 }
    | some (params, b2) =>
      let b3 : LockTxBuilder Sc Pt :=
        { b2 with
          m_SharedProof :=
            env.CoSignFinalize b2.m_SharedProof (GetSharedSeed b2) (GetSharedBlindingFactor b2)
              params }
      Flow.next
        { f with
          tx := f.tx.SetParameter TxParameterID.SharedBulletProof (Value.proof b3.m_SharedProof)
            SubTxID.LOCK_TX
          b := b3 }
  else
    let msig :=
      (GetParameter Value.toMSig? f.tx.store TxParameterID.PeerSharedBulletProofMSig
        SubTxID.LOCK_TX).getD f.b.m_ProofPartialMultiSig
    Flow.next
      { f with
        b := { f.b with
          m_ProofPartialMultiSig := msig
          m_SharedProof :=
            { f.b.m_SharedProof with
              m_Part3 :=
                env.CoSignPart3 msig (GetSharedSeed f.b) (GetSharedBlindingFactor f.b) 0 } } }

/-- Source lines 256-264; throws when the shared commitment does. -/
def AddSharedOutput (env : Env Sc Pt) (_amount : Amount) (f : Frame Sc Pt) :
    Flow (Frame Sc Pt) :=
  match GetSharedCommitment env f.tx.store f.b with
  | none => Flow.thrown f
  | some c =>
    Flow.next
      { f with
        b := { f.b with
          m_Outputs :=
            f.b.m_Outputs ++ [{ m_Commitment := c, m_pConfidential := some f.b.m_SharedProof }] } }

/-- Source lines 266-292. -/
def LoadSharedParameters (env : Env Sc Pt) (f : Frame Sc Pt) : Frame Sc Pt :=
  let f1 : Frame Sc Pt :=
    match GetParameter Value.toScalar? f.tx.store TxParameterID.SharedBlindingFactor
        SubTxID.LOCK_TX with
    | none =>
      let g := f.tx.generateSharedCoin env (GetAmount f.b)
      let coin := g.1
      let tx1 := g.2.SetParameter TxParameterID.SharedCoinID (Value.coinID coin.m_ID)
        SubTxID.LOCK_TX
      let sk := env.switchCommitmentCreate coin.m_ID
      let tx2 := tx1.SetParameter TxParameterID.SharedBlindingFactor (Value.scalar sk)
        SubTxID.LOCK_TX
      let seed := env.GenerateSeed sk (GetAmount f.b)
      let tx3 := tx2.SetParameter TxParameterID.SharedSeed (Value.seed seed) SubTxID.LOCK_TX
      { f with
        tx := tx3
        b := { f.b with
          m_SharedCoin := coin, m_SharedBlindingFactor := sk, m_SharedSeed := seed } }
    | some sk =>
      { f with
        b := { f.b with
          m_SharedBlindingFactor := sk
          m_SharedSeed :=
            (GetParameter Value.toSeed? f.tx.store TxParameterID.SharedSeed
              SubTxID.LOCK_TX).getD f.b.m_SharedSeed
          m_SharedCoin :=
            { f.b.m_SharedCoin with
              m_ID :=
                (GetParameter Value.toCoinID? f.tx.store TxParameterID.SharedCoinID
                  SubTxID.LOCK_TX).getD f.b.m_SharedCoin.m_ID }
          m_SharedProof :=
            (GetParameter Value.toProof? f.tx.store TxParameterID.SharedBulletProof
              SubTxID.LOCK_TX).getD f.b.m_SharedProof } }
  let blindingFactor : Sc := -f1.b.m_SharedBlindingFactor
  { f1 with b := { f1.b with m_Offset := f1.b.m_Offset + blindingFactor } }

/-! ## Peer messages (source lines 133-201) -/

/-- Source lines 138-148: the invitation bundle. -/
def SendInvitation.msg (env : Env Sc Pt) (lockBuilder : LockTxBuilder Sc Pt) (isSender : Bool)
    (atomicSwapAmount : Amount) (atomicSwapCoin : AtomicSwapCoin) : SetTxParameter Sc Pt :=
  AddParameter (AddParameter (AddParameter (AddParameter (AddParameter (AddParameter
    (AddParameter (AddParameter (AddParameter (AddParameter []
      TxParameterID.Amount (Value.amount (GetAmount lockBuilder)))
      TxParameterID.Fee (Value.amount (GetFee lockBuilder)))
      TxParameterID.IsSender (Value.bool (!isSender)))
      TxParameterID.AtomicSwapAmount (Value.amount atomicSwapAmount))
      TxParameterID.AtomicSwapCoin (Value.swapCoin atomicSwapCoin))
      TxParameterID.SubTxIndex (Value.subTx SubTxID.LOCK_TX))
      TxParameterID.MinHeight (Value.amount (GetMinHeight lockBuilder)))
      TxParameterID.PeerProtoVersion (Value.protoVersion env.s_ProtoVersion))
      TxParameterID.PeerPublicExcess (Value.point (GetPublicExcess lockBuilder)))
      TxParameterID.PeerPublicNonce (Value.point (GetPublicNonce lockBuilder))

/-- Source lines 150-153, shared by the three senders: hand the message to the
gateway and report a refusal. -/
def sendOrFail (env : Env Sc Pt) (t : Tx Sc Pt) (msg : SetTxParameter Sc Pt) : Tx Sc Pt :=
  let r := t.SendTxParameters env msg
  if !r.1 then r.2.OnFailed TxFailureReason.FailedToSendParameters false else r.2

/-- Source lines 133-154; throws when a mandatory swap parameter is absent. -/
def SendInvitation (env : Env Sc Pt) (t : Tx Sc Pt) (lockBuilder : LockTxBuilder Sc Pt)
    (isSender : Bool) : Flow (Tx Sc Pt) :=
  match GetParameter Value.toAmount? t.store TxParameterID.AtomicSwapAmount SubTxID.Default with
  | none => Flow.thrown t
  | some atomicSwapAmount =>
    match GetParameter Value.toSwapCoin? t.store TxParameterID.AtomicSwapCoin
        SubTxID.Default with
    | none => Flow.thrown t
    | some atomicSwapCoin =>
      Flow.next
        (sendOrFail env t (SendInvitation.msg env lockBuilder isSender atomicSwapAmount
          atomicSwapCoin))

/-- Source lines 158-175: the part-2 bundle. -/
def SendBulletProofPart2.msg (env : Env Sc Pt) (lockBuilder : LockTxBuilder Sc Pt)
    (isSender : Bool) : SetTxParameter Sc Pt :=
  let msg : SetTxParameter Sc Pt :=
    AddParameter (AddParameter (AddParameter []
      TxParameterID.SubTxIndex (Value.subTx SubTxID.LOCK_TX))
      TxParameterID.PeerSignature (Value.scalar (GetPartialSignature lockBuilder)))
      TxParameterID.PeerOffset (Value.scalar (GetOffset lockBuilder))
  if isSender then
    let proofPartialMultiSig := GetProofPartialMultiSig lockBuilder
    AddParameter msg TxParameterID.PeerSharedBulletProofMSig (Value.msig proofPartialMultiSig)
  else
    let bulletProof := GetSharedProof lockBuilder
    AddParameter (AddParameter (AddParameter (AddParameter (AddParameter msg
      TxParameterID.PeerProtoVersion (Value.protoVersion env.s_ProtoVersion))
      TxParameterID.PeerPublicExcess (Value.point (GetPublicExcess lockBuilder)))
      TxParameterID.PeerPublicNonce (Value.point (GetPublicNonce lockBuilder)))
      TxParameterID.PeerPublicSharedBlindingFactor
        (Value.point (GetPublicSharedBlindingFactor env lockBuilder)))
      TxParameterID.PeerSharedBulletProofPart2 (Value.part2 bulletProof.m_Part2)

/-- Source lines 156-181. -/
def SendBulletProofPart2 (env : Env Sc Pt) (t : Tx Sc Pt) (lockBuilder : LockTxBuilder Sc Pt)
    (isSender : Bool) : Tx Sc Pt :=
  sendOrFail env t (SendBulletProofPart2.msg env lockBuilder isSender)

/-- Source lines 185-195: the part-3 bundle. -/
def SendBulletProofPart3.msg (lockBuilder : LockTxBuilder Sc Pt) (isSender : Bool) :
    SetTxParameter Sc Pt :=
  let msg : SetTxParameter Sc Pt :=
    AddParameter [] TxParameterID.SubTxIndex (Value.subTx SubTxID.LOCK_TX)
  if !isSender then
    let bulletProof := GetSharedProof lockBuilder
    AddParameter msg TxParameterID.PeerSharedBulletProofPart3 (Value.part3 bulletProof.m_Part3)
  else
    msg

/-- Source lines 183-201. -/
def SendBulletProofPart3 (env : Env Sc Pt) (t : Tx Sc Pt) (lockBuilder : LockTxBuilder Sc Pt)
    (isSender : Bool) : Tx Sc Pt :=
  sendOrFail env t (SendBulletProofPart3.msg lockBuilder isSender)

/-! ## The driver (`AtomicSwapTransaction::UpdateImpl`, source lines 41-131) -/

/-- Modelled from the spec: `CheckExpired` (a method of the base transaction,
not among the sources). "If expired (current height > MinHeight + TTL),
transition to `Failed` and return"; expiry is terminal and the peer is
notified. Whether the tip is past the limit is `env.expired`. -/
def CheckExpired (env : Env Sc Pt) (t : Tx Sc Pt) : Bool × Tx Sc Pt :=
  if env.expired then
    (true, (t.SetState State.Failed SubTxID.LOCK_TX).OnFailed
      TxFailureReason.TransactionExpired true)
  else
    (false, t)

/-- Modelled from the spec: `GetPeerPublicExcessAndNonce` (a method of the base
builder, not among the sources), the gate "peer public excess + nonce absent":
true when both are in the store. -/
def GetPeerPublicExcessAndNonce (st : Store Sc Pt) : Bool :=
  (GetParameter Value.toPoint? st TxParameterID.PeerPublicExcess SubTxID.LOCK_TX).isSome &&
    (GetParameter Value.toPoint? st TxParameterID.PeerPublicNonce SubTxID.LOCK_TX).isSome

/-- Source lines 48-67: the block run once, while nothing has been prepared. -/
def UpdateImpl.prepare (env : Env Sc Pt) (isSender : Bool) (lockTxState : State)
    (f : Frame Sc Pt) : Flow (Frame Sc Pt) :=
  let r := env.GetInitialTxParams f.tx.store f.b.toBaseTxBuilder
  (f.step BuilderCall.GetInitialTxParams r.2).andThen fun f1 =>
    if !r.1 && lockTxState == State.Initial then
      let e := CheckExpired env f1.tx
      if e.1 then
        Flow.done { f1 with tx := e.2 }
      else
        (if isSender then
          (f1.base BuilderCall.SelectInputs env.SelectInputs).andThen fun f =>
            f.base BuilderCall.AddChangeOutput env.AddChangeOutput
        else
          Flow.next f1).andThen fun f2 =>
            let fo := env.FinalizeOutputs f2.tx.store f2.b.toBaseTxBuilder
            (f2.step BuilderCall.FinalizeOutputs fo.2).andThen fun f3 =>
              -- `if (!FinalizeOutputs()) { /* TODO: transaction is too big */ }`: empty body
              let f4 : Frame Sc Pt := if !fo.1 then f3 else f3
              Flow.next { f4 with tx := f4.tx.UpdateTxDescription TxStatus.InProgress }
    else
      Flow.next f1

/-- Source lines 101-123: the sender's completion of the lock transaction. -/
def UpdateImpl.finalize (env : Env Sc Pt) (amount : Amount) (f : Frame Sc Pt) :
    Flow (Frame Sc Pt) :=
  let f1 := f.log BuilderCall.IsPeerSignatureValid
  if !env.IsPeerSignatureValid f1.tx.store f1.b.toBaseTxBuilder then
    Flow.done f1
  else
    (f1.base BuilderCall.FinalizeSignature env.FinalizeSignature).andThen fun f2 =>
      (AddSharedOutput env amount (f2.log BuilderCall.AddSharedOutput)).andThen fun f3 =>
        let tx := env.CreateTransaction f3.b.toBaseTxBuilder
        -- `tx->IsValid(ctx);`: the verdict is dropped
        let _valid := env.IsValid tx
        Flow.done (f3.log BuilderCall.CreateTransaction)

/-- Source lines 69-131. -/
def UpdateImpl.exchange (env : Env Sc Pt) (isSender : Bool) (lockTxState : State)
    (amount : Amount) (f : Frame Sc Pt) : Flow (Frame Sc Pt) :=
  (f.base BuilderCall.CreateKernel env.CreateKernel).andThen fun f1 =>
    if !GetPeerPublicExcessAndNonce f1.tx.store then
      if lockTxState == State.Initial then
        ((SendInvitation env f1.tx f1.b isSender).map fun t => { f1 with tx := t }).andThen
          fun f2 => Flow.done { f2 with tx := f2.tx.SetState State.Invitation SubTxID.LOCK_TX }
      else
        Flow.done f1
    else
      ((LoadSharedParameters env (f1.log BuilderCall.LoadSharedParameters)).base
        BuilderCall.SignPartial env.SignPartial).andThen fun f2 =>
        if lockTxState == State.Initial || lockTxState == State.Invitation then
          (SharedUTXOProofPart2 env isSender (f2.log BuilderCall.SharedUTXOProofPart2)).andThen
            fun f3 =>
              let t := SendBulletProofPart2 env f3.tx f3.b isSender
              Flow.done { f3 with tx := t.SetState State.SharedUTXOProofPart2 SubTxID.LOCK_TX }
        else
          let f3 := LoadPeerOffset (f2.log BuilderCall.LoadPeerOffset)
          if lockTxState == State.SharedUTXOProofPart2 then
            (SharedUTXOProofPart3 env isSender
              (f3.log BuilderCall.SharedUTXOProofPart3)).andThen fun f4 =>
                let t := SendBulletProofPart3 env f4.tx f4.b isSender
                let f5 : Frame Sc Pt :=
                  { f4 with tx := t.SetState State.SharedUTXOProofPart3 SubTxID.LOCK_TX }
                if isSender then UpdateImpl.finalize env amount f5 else Flow.done f5
          else
            -- `if (lockTxState == State::SharedUTXOProofPart3) { }`: empty body
            Flow.done f3

/-- Source lines 43-131 with the builder in view: `none` when one of the
mandatory parameters read at the start is missing (the call throws before a
builder exists). -/
def UpdateImpl.frame (env : Env Sc Pt) (t : Tx Sc Pt) : Option (Flow (Frame Sc Pt)) :=
  match GetParameter Value.toBool? t.store TxParameterID.IsSender SubTxID.Default with
  | none => none
  | some isSender =>
    let lockTxState := GetState t.store SubTxID.LOCK_TX
    match GetParameter Value.toAmount? t.store TxParameterID.Amount SubTxID.Default with
    | none => none
    | some amount =>
      match GetParameter Value.toAmount? t.store TxParameterID.Fee SubTxID.Default with
      | none => none
      | some fee =>
        let lockTxBuilder : Frame Sc Pt :=
          { tx := t, b := LockTxBuilder.new amount fee, calls := [] }
        some ((UpdateImpl.prepare env isSender lockTxState lockTxBuilder).andThen
          (UpdateImpl.exchange env isSender lockTxState amount))

/-- Source lines 41-131: one call of `UpdateImpl` on the transaction. -/
def UpdateImpl (env : Env Sc Pt) (t : Tx Sc Pt) : Flow (Tx Sc Pt) :=
  match UpdateImpl.frame env t with
  | none => Flow.thrown t
  | some r => r.map fun f => f.tx

/-- The builder methods called during one `UpdateImpl` (ghost). -/
def UpdateImpl.calls (env : Env Sc Pt) (t : Tx Sc Pt) : List BuilderCall :=
  match UpdateImpl.frame env t with
  | none => []
  | some r => r.val.calls

/-- The builder as the call leaves it (ghost). -/
def UpdateImpl.builder (env : Env Sc Pt) (t : Tx Sc Pt) : Option (LockTxBuilder Sc Pt) :=
  (UpdateImpl.frame env t).map fun r => r.val.b


end Curve

/-! ## The wallet client (`WalletClient::calcChange`, wallet_client.cpp lines 354-370) -/

/-- Addition of 64-bit unsigned integers: the sum wraps around modulo `2^64`. -/
def add64 (a b : Nat) : Nat := (a + b) % 2 ^ 64

/-- Subtraction of 64-bit unsigned integers: the difference wraps around
modulo `2^64`. -/
def sub64 (a b : Nat) : Nat := (a + 2 ^ 64 - b % 2 ^ 64) % 2 ^ 64

/-- Source lines 354-370 of wallet_client.cpp. The wallet database's
`selectCoins` is a parameter; the result is the list of values handed to
`onChangeCalculated`, in order. -/
def WalletClient.calcChange (selectCoins : Amount → Bool → List Coin) (amount : Amount) :
    List Amount :=
  let coins := selectCoins amount false
  let sum : Amount := coins.foldl (fun sum c => add64 sum c.m_ID.m_Value) 0
  if sum < amount then
    [0]
  else
    [sub64 sum amount]

/-! ## Observations used by the statements -/

/-- The LockTx state held in the store of a transaction. -/
def lockState (t : Tx Sc Pt) : State := GetState t.store SubTxID.LOCK_TX

/-- Whether a shared blinding factor is stored for the lock transaction. -/
def sbfStored (st : Store Sc Pt) : Bool :=
  (GetParameter Value.toScalar? st TxParameterID.SharedBlindingFactor SubTxID.LOCK_TX).isSome

/-- The messages handed to the gateway, in order. -/
def Tx.sent (t : Tx Sc Pt) : List (SetTxParameter Sc Pt) :=
  t.trace.filterMap fun e =>
    match e with
    | Effect.send m => some m
    | _ => none

/-- Effects that stay inside the wallet and do not touch the `State` parameter:
status updates, writes of other parameters and coins generated in the wallet
database. -/
def Effect.isLocal : Effect Sc Pt → Bool
  | .setParameter id _ _ => decide (id ≠ TxParameterID.State)
  | .updateTxDescription _ => true
  | .generateSharedCoin _ => true
  | _ => false

/-- Sends and writes of the `State` parameter. -/
def Effect.isSendOrStateWrite : Effect Sc Pt → Bool
  | .send _ => true
  | .setParameter id _ _ => decide (id = TxParameterID.State)
  | _ => false

/-- The parameters private to the shared output. -/
def sharedIds : List TxParameterID :=
  [TxParameterID.SharedCoinID, TxParameterID.SharedBlindingFactor, TxParameterID.SharedSeed,
    TxParameterID.SharedBulletProof]

/-- The ids under which the base builder persists its own outputs. -/
def TxParameterID.isBuilder : TxParameterID → Bool
  | .Builder _ => true
  | _ => false

/-- The transaction `t2` comes from `t1` by local effects only: the trace grew
by local effects, the store changed at most on the shared-output parameters
and on the base builder's own, and a stored shared blinding factor stays
stored. -/
def Benign (t1 t2 : Tx Sc Pt) : Prop :=
  (∀ s i, i ∉ sharedIds → TxParameterID.isBuilder i = false → t2.store s i = t1.store s i) ∧
  (∃ w, t2.trace = t1.trace ++ w ∧ ∀ e ∈ w, Effect.isLocal e = true) ∧
  (sbfStored t1.store = true → sbfStored t2.store = true)

/-- The transaction `t2` comes from `t1` by what steps of the base builder
persist and nothing else: every parameter other than the base builder's own is
as it was, and the trace grew only by writes under the base builder's ids. -/
def BuilderOnly (t1 t2 : Tx Sc Pt) : Prop :=
  (∀ s i, TxParameterID.isBuilder i = false → t2.store s i = t1.store s i) ∧
  ∃ w, t2.trace = t1.trace ++ w ∧
    ∀ e ∈ w, ∃ k v, e = Effect.setParameter (TxParameterID.Builder k) v SubTxID.LOCK_TX

/-- A flow that either fell through or threw, with what it did to the frame. -/
def Flow.Step (r : Flow (Frame Sc Pt)) (f : Frame Sc Pt) : Prop :=
  ∃ f1, (r = Flow.next f1 ∨ r = Flow.thrown f1) ∧ f1.calls = f.calls ∧ Benign f.tx f1.tx

/-- The three parameters `UpdateImpl` reads first are all stored. -/
def MandatoryStored (st : Store Sc Pt) : Prop :=
  (GetParameter Value.toBool? st TxParameterID.IsSender SubTxID.Default).isSome = true ∧
    (GetParameter Value.toAmount? st TxParameterID.Amount SubTxID.Default).isSome = true ∧
    (GetParameter Value.toAmount? st TxParameterID.Fee SubTxID.Default).isSome = true

/-- The steps the driver takes: from `Initial` to `Invitation`, to
`SharedUTXOProofPart2` or to `Failed`, from `Invitation` to
`SharedUTXOProofPart2`, from `SharedUTXOProofPart2` to `SharedUTXOProofPart3`. -/
def LockEdge (a b : State) : Prop :=
  (a = State.Initial ∧
      (b = State.Invitation ∨ b = State.SharedUTXOProofPart2 ∨ b = State.Failed)) ∨
    (a = State.Invitation ∧ b = State.SharedUTXOProofPart2) ∨
    (a = State.SharedUTXOProofPart2 ∧ b = State.SharedUTXOProofPart3)

/-- The spec's ordering requirement on one call's trace, in its words: a
parameter write is persisted before the corresponding message is emitted, so
every send has a `State` write of the lock transaction somewhere before it. -/
def WriteThenSend (tr : List (Effect Sc Pt)) : Prop :=
  ∀ pre m post, tr = pre ++ Effect.send m :: post →
    ∃ s, Effect.setParameter TxParameterID.State (Value.state s) SubTxID.LOCK_TX ∈ pre

section Curve

variable [CommRing Sc] [AddCommGroup Pt] [Module Sc Pt]

/-- The message `m` is the bundle one of the three senders builds for the
step into state `s1`. -/
def IsStepMsg (env : Env Sc Pt) (isSender : Bool) (s1 : State) (m : SetTxParameter Sc Pt) :
    Prop :=
  (s1 = State.Invitation ∧ ∃ b a c, m = SendInvitation.msg env b isSender a c) ∨
    (s1 = State.SharedUTXOProofPart2 ∧ ∃ b, m = SendBulletProofPart2.msg env b isSender) ∨
    (s1 = State.SharedUTXOProofPart3 ∧ ∃ b, m = SendBulletProofPart3.msg b isSender)

/-- What can happen to a transaction between and including updates: a call of
`UpdateImpl` in some environment, or the receipt of a peer parameter, which
the wallet writes to the store. -/
inductive Event (Sc Pt : Type)
  | update (env : Env Sc Pt)
  | received (id : TxParameterID) (v : Value Sc Pt) (sub : SubTxID)

/-- The transaction after an event. -/
def Event.apply (t : Tx Sc Pt) : Event Sc Pt → Tx Sc Pt
  | .update env => (UpdateImpl env t).val
  | .received id v sub => { t with store := t.store.set id v sub }

/-- Peer bundles never carry the `State` parameter (none of the three messages
built in this file has it). -/
def Event.fromPeer : Event Sc Pt → Prop
  | .update _ => True
  | .received id _ _ => id ≠ TxParameterID.State

/-- The LockTx states held in the store before the first event and after each
event of a run. -/
def observedStates (t : Tx Sc Pt) : List (Event Sc Pt) → List State
  | [] => [lockState t]
  | e :: es => lockState t :: observedStates (e.apply t) es

/-- Whether some update of a run ends by an exception. -/
def Event.anyThrown (t : Tx Sc Pt) : List (Event Sc Pt) → Bool
  | [] => false
  | .update env :: es =>
    (UpdateImpl env t).isThrown || Event.anyThrown (UpdateImpl env t).val es
  | .received id v sub :: es =>
    Event.anyThrown (Event.apply t (Event.received id v sub)) es

end Curve

/-! ## Concrete inputs

Scalars and points are integers, `G = 1` and `H = 1000`; the collaborators
outside this file do nothing and accept everything unless said otherwise. -/

/-- A base-builder step that leaves the builder as it is, persists nothing and
does not throw. -/
def BaseStep.keep (b : BaseTxBuilder Int Int) : BaseStep Int Int :=
  { b := b, persisted := [], threw := false }

/-- An environment in which every collaborator succeeds. -/
def sampleEnv : Env Int Int :=
  { G := 1
    H := 1000
    s_ProtoVersion := 1
    generateSharedCoin := fun a =>
      { m_ID := { m_Idx := 7, m_SubIdx := 0, m_Type := 0, m_Value := a } }
    switchCommitmentCreate := fun k => (k.m_Idx : Int) + 5
    GenerateSeed := fun _ a => a + 1
    GenerateSeedKid := fun _ => 3
    CoSignStep2 := fun p _ _ _ => (p, 11)
    CoSignFinalize := fun p _ _ _ => p
    CoSignPart2 := fun s _ => s + 2
    CoSignPart3 := fun m s _ _ => m + s
    GetInitialTxParams := fun _ b => (false, BaseStep.keep b)
    SelectInputs := fun _ b => BaseStep.keep b
    AddChangeOutput := fun _ b => BaseStep.keep b
    FinalizeOutputs := fun _ b => (true, BaseStep.keep b)
    CreateKernel := fun _ b => BaseStep.keep b
    SignPartial := fun _ b => BaseStep.keep b
    IsPeerSignatureValid := fun _ _ => true
    FinalizeSignature := fun _ b => BaseStep.keep b
    CreateTransaction := fun b => { m_Outputs := b.m_Outputs, m_Offset := b.m_Offset }
    IsValid := fun _ => true
    SendTxParameters := fun _ => true
    expired := false }

/-- The same environment with a peer signature that does not verify. -/
def badSignatureEnv : Env Int Int :=
  { sampleEnv with IsPeerSignatureValid := fun _ _ => false }

/-- The same environment with outputs too big to finalize. -/
def tooBigEnv : Env Int Int :=
  { sampleEnv with FinalizeOutputs := fun _ b => (false, BaseStep.keep b) }

/-- The store with nothing in it. -/
def emptyStore : Store Int Int := fun _ _ => none

/-- The initiating sender before anything happened: its role, amount 100,
fee 1 and the counter-chain side of the swap. -/
def initiatorStore : Store Int Int :=
  ((((emptyStore.set TxParameterID.IsSender (Value.bool true) SubTxID.Default).set
    TxParameterID.Amount (Value.amount 100) SubTxID.Default).set
    TxParameterID.Fee (Value.amount 1) SubTxID.Default).set
    TxParameterID.AtomicSwapAmount (Value.amount 5) SubTxID.Default).set
    TxParameterID.AtomicSwapCoin (Value.swapCoin 0) SubTxID.Default

/-- The responder after the invitation arrived: its role, amount, fee and the
initiator's public excess and nonce. -/
def responderStore : Store Int Int :=
  ((((emptyStore.set TxParameterID.IsSender (Value.bool false) SubTxID.Default).set
    TxParameterID.Amount (Value.amount 100) SubTxID.Default).set
    TxParameterID.Fee (Value.amount 1) SubTxID.Default).set
    TxParameterID.PeerPublicExcess (Value.point 4) SubTxID.LOCK_TX).set
    TxParameterID.PeerPublicNonce (Value.point 9) SubTxID.LOCK_TX

/-- The sender in state `SharedUTXOProofPart2`, with the responder's part-2
bundle in the store. -/
def senderPart2Store : Store Int Int :=
  ((((((initiatorStore.set TxParameterID.State (Value.state State.SharedUTXOProofPart2)
    SubTxID.LOCK_TX).set
    TxParameterID.PeerPublicExcess (Value.point 4) SubTxID.LOCK_TX).set
    TxParameterID.PeerPublicNonce (Value.point 9) SubTxID.LOCK_TX).set
    TxParameterID.PeerPublicSharedBlindingFactor (Value.point 12) SubTxID.LOCK_TX).set
    TxParameterID.PeerSignature (Value.scalar 3) SubTxID.LOCK_TX).set
    TxParameterID.PeerOffset (Value.scalar 8) SubTxID.LOCK_TX).set
    TxParameterID.SharedBlindingFactor (Value.scalar 21) SubTxID.LOCK_TX

/-- The sender's builder with shared blinding factor 21. -/
def senderBuilder : LockTxBuilder Int Int :=
  { LockTxBuilder.new 100 1 with m_SharedBlindingFactor := 21 }

/-- The responder's builder with shared blinding factor 12. -/
def responderBuilder : LockTxBuilder Int Int :=
  { LockTxBuilder.new 100 1 with m_SharedBlindingFactor := 12 }

/-- The sender's store holding the responder's public share `12·G`. -/
def senderShareStore : Store Int Int :=
  emptyStore.set TxParameterID.PeerPublicSharedBlindingFactor (Value.point 12) SubTxID.LOCK_TX

/-- The responder's store holding the sender's public share `21·G`. -/
def responderShareStore : Store Int Int :=
  emptyStore.set TxParameterID.PeerPublicSharedBlindingFactor (Value.point 21) SubTxID.LOCK_TX

/-- The same environment with an assembled transaction that `IsValid` rejects. -/
def invalidTxEnv : Env Int Int :=
  { sampleEnv with IsValid := fun _ => false }

/-- The same environment with a gateway that refuses every message. -/
def refusingEnv : Env Int Int :=
  { sampleEnv with SendTxParameters := fun _ => false }

/-- A fresh builder over an empty store, before anything was loaded. -/
def freshFrame : Frame Int Int :=
  { tx := ⟨emptyStore, []⟩, b := LockTxBuilder.new 100 1, calls := [] }

/-- The same environment with a base builder that persists its kernel data
and its partial signature on every call. -/
def persistingEnv : Env Int Int :=
  { sampleEnv with
    CreateKernel := fun _ b =>
      { b := { b with m_PublicExcess := 30, m_PublicNonce := 40 }
        persisted := [(0, Value.scalar 3), (1, Value.scalar 4)]
        threw := false }
    SignPartial := fun _ b =>
      { b := { b with m_PartialSignature := 50 }
        persisted := [(2, Value.scalar 50)]
        threw := false } }

/-- The same environment with the transaction past its lifetime. -/
def expiredEnv : Env Int Int :=
  { sampleEnv with expired := true }

/-- The same environment with input selection that throws (not enough coins). -/
def noInputsEnv : Env Int Int :=
  { sampleEnv with
    SelectInputs := fun _ b => { b := b, persisted := [], threw := true } }

/-- The initiator's run: its first update, the responder's answer arriving,
then two further updates. -/
def initiatorRun : List (Event Int Int) :=
  [Event.update sampleEnv,
    Event.received TxParameterID.PeerPublicExcess (Value.point 4) SubTxID.LOCK_TX,
    Event.received TxParameterID.PeerPublicNonce (Value.point 9) SubTxID.LOCK_TX,
    Event.received TxParameterID.PeerPublicSharedBlindingFactor (Value.point 12)
      SubTxID.LOCK_TX,
    Event.update sampleEnv, Event.update sampleEnv]

/-! ## Lemmas on single operations -/

/-- Doing nothing is benign. -/
theorem Benign.refl (t : Tx Sc Pt) : Benign t t :=
  ⟨fun _ _ _ _ => rfl, ⟨[], by simp, by simp⟩, fun h => h⟩

/-- Benign changes compose. -/
theorem Benign.trans {t1 t2 t3 : Tx Sc Pt} (h12 : Benign t1 t2) (h23 : Benign t2 t3) :
    Benign t1 t3 := by
  obtain ⟨a1, ⟨w1, e1, l1⟩, s1⟩ := h12
  obtain ⟨a2, ⟨w2, e2, l2⟩, s2⟩ := h23
  refine ⟨fun s i hi hb => (a2 s i hi hb).trans (a1 s i hi hb), ⟨w1 ++ w2, ?_, ?_⟩,
    fun h => s2 (s1 h)⟩
  · rw [e2, e1, List.append_assoc]
  · intro e he
    rcases List.mem_append.mp he with h | h
    · exact l1 e h
    · exact l2 e h

/-- Local effects leave the stored state alone. -/
theorem Benign.lockState_eq {t1 t2 : Tx Sc Pt} (h : Benign t1 t2) :
    lockState t2 = lockState t1 := by
  simp [lockState, GetState, GetParameter, h.1 SubTxID.LOCK_TX TxParameterID.State
    (by decide) rfl]

/-- Local effects leave the peer's public excess and nonce alone. -/
theorem Benign.ready_eq {t1 t2 : Tx Sc Pt} (h : Benign t1 t2) :
    GetPeerPublicExcessAndNonce t2.store = GetPeerPublicExcessAndNonce t1.store := by
  simp [GetPeerPublicExcessAndNonce, GetParameter,
    h.1 SubTxID.LOCK_TX TxParameterID.PeerPublicExcess (by decide) rfl,
    h.1 SubTxID.LOCK_TX TxParameterID.PeerPublicNonce (by decide) rfl]

/-- A write of a shared-output parameter under `LOCK_TX` is benign, provided a
write of the shared blinding factor stores a scalar. -/
theorem Benign.setShared (t : Tx Sc Pt) (id : TxParameterID) (v : Value Sc Pt)
    (hid : id ∈ sharedIds) (hv : id = TxParameterID.SharedBlindingFactor → ∃ k, v = Value.scalar k) :
    Benign t (t.SetParameter id v SubTxID.LOCK_TX) := by
  refine ⟨?_, ⟨[Effect.setParameter id v SubTxID.LOCK_TX], rfl, ?_⟩, ?_⟩
  · intro s i hi _
    have : i ≠ id := fun h => hi (h ▸ hid)
    simp [Tx.SetParameter, Store.set, this]
  · intro e he
    simp only [List.mem_singleton] at he
    subst he
    have : id ≠ TxParameterID.State := by
      rintro rfl
      simp [sharedIds] at hid
    simp [Effect.isLocal, this]
  · intro h
    by_cases hc : id = TxParameterID.SharedBlindingFactor
    · obtain ⟨k, rfl⟩ := hv hc
      subst hc
      simp [sbfStored, GetParameter, Tx.SetParameter, Store.set, Value.toScalar?]
    · have hc2 : TxParameterID.SharedBlindingFactor ≠ id := fun h => hc h.symm
      simpa [sbfStored, GetParameter, Tx.SetParameter, Store.set, hc2] using h

/-- A status update is benign. -/
theorem Benign.updateTxDescription (t : Tx Sc Pt) (s : TxStatus) :
    Benign t (t.UpdateTxDescription s) :=
  ⟨fun _ _ _ _ => rfl, ⟨[Effect.updateTxDescription s], rfl, by simp [Effect.isLocal]⟩,
    fun h => h⟩

/-- Generating a coin in the wallet database is benign. -/
theorem Benign.generateSharedCoin (env : Env Sc Pt) (t : Tx Sc Pt) (a : Amount) :
    Benign t (t.generateSharedCoin env a).2 :=
  ⟨fun _ _ _ _ => rfl, ⟨[Effect.generateSharedCoin a], rfl, by simp [Effect.isLocal]⟩,
    fun h => h⟩

/-- Persisting nothing is a change by the base builder only. -/
theorem BuilderOnly.unchanged (t : Tx Sc Pt) : BuilderOnly t t :=
  ⟨fun _ _ _ => rfl, [], by simp, by simp⟩

/-- Changes by the base builder only compose. -/
theorem BuilderOnly.followedBy {t1 t2 t3 : Tx Sc Pt} (h12 : BuilderOnly t1 t2)
    (h23 : BuilderOnly t2 t3) : BuilderOnly t1 t3 := by
  obtain ⟨a1, w1, e1, l1⟩ := h12
  obtain ⟨a2, w2, e2, l2⟩ := h23
  refine ⟨fun s i hb => (a2 s i hb).trans (a1 s i hb), w1 ++ w2, ?_, ?_⟩
  · rw [e2, e1, List.append_assoc]
  · intro e he
    rcases List.mem_append.mp he with h | h
    · exact l1 e h
    · exact l2 e h

/-- What the base builder persists is a local effect. -/
theorem BuilderOnly.benign {t1 t2 : Tx Sc Pt} (h : BuilderOnly t1 t2) : Benign t1 t2 := by
  obtain ⟨a, w, e, l⟩ := h
  refine ⟨fun s i _ hb => a s i hb, ⟨w, e, ?_⟩, ?_⟩
  · intro x hx
    obtain ⟨k, v, rfl⟩ := l x hx
    simp [Effect.isLocal]
  · intro hs
    simpa [sbfStored, GetParameter, a SubTxID.LOCK_TX TxParameterID.SharedBlindingFactor rfl]
      using hs

/-- What the base builder persists leaves the shared blinding factor alone. -/
theorem BuilderOnly.sbfStored_eq {t1 t2 : Tx Sc Pt} (h : BuilderOnly t1 t2) :
    sbfStored t2.store = sbfStored t1.store := by
  simp [sbfStored, GetParameter, h.1 SubTxID.LOCK_TX TxParameterID.SharedBlindingFactor rfl]

/-- One write under an id of the base builder. -/
theorem BuilderOnly.setBuilder (t : Tx Sc Pt) (k : Nat) (v : Value Sc Pt) :
    BuilderOnly t (t.SetParameter (TxParameterID.Builder k) v SubTxID.LOCK_TX) := by
  refine ⟨?_, [Effect.setParameter (TxParameterID.Builder k) v SubTxID.LOCK_TX], rfl, ?_⟩
  · intro s i hi
    have : i ≠ TxParameterID.Builder k := by
      rintro rfl
      simp [TxParameterID.isBuilder] at hi
    simp [Tx.SetParameter, Store.set, this]
  · intro e he
    simp only [List.mem_singleton] at he
    exact ⟨k, v, he⟩

/-- Persisting the outputs of a base-builder step. -/
theorem BuilderOnly.persist (ws : List (Nat × Value Sc Pt)) :
    ∀ t : Tx Sc Pt, BuilderOnly t (t.persist ws) := by
  induction ws with
  | nil => exact fun t => BuilderOnly.unchanged t
  | cons w ws ih =>
    intro t
    exact (BuilderOnly.setBuilder t w.1 w.2).followedBy (ih _)

/-- The transaction after a step of the base builder. -/
theorem Frame.after_tx (f : Frame Sc Pt) (c : BuilderCall) (r : BaseStep Sc Pt) :
    BuilderOnly f.tx (f.after c r).tx := BuilderOnly.persist r.persisted f.tx

/-- What follows a step of the base builder runs unless the step throws. -/
theorem Frame.step_andThen (f : Frame Sc Pt) (c : BuilderCall) (r : BaseStep Sc Pt)
    (k : Frame Sc Pt → Flow (Frame Sc Pt)) :
    (f.step c r).andThen k = if r.threw then Flow.thrown (f.after c r) else k (f.after c r) := by
  unfold Frame.step
  split <;> rfl

section Scalars

variable [CommRing Sc]

/-- Loading the shared parameters is benign, leaves a shared blinding factor in
the store, and writes nothing when one was stored already. -/
theorem LoadSharedParameters_benign (env : Env Sc Pt) (f : Frame Sc Pt) :
    Benign f.tx (LoadSharedParameters env f).tx ∧
      sbfStored (LoadSharedParameters env f).tx.store = true ∧
      (sbfStored f.tx.store = true → (LoadSharedParameters env f).tx = f.tx) := by
  unfold LoadSharedParameters
  split
  · rename_i h
    refine ⟨?_, ?_, ?_⟩
    · refine (((Benign.generateSharedCoin env _ _).trans
        (Benign.setShared _ _ _ (by simp [sharedIds]) (by simp))).trans
        (Benign.setShared _ _ _ (by simp [sharedIds]) (by simp))).trans
        (Benign.setShared _ _ _ (by simp [sharedIds]) (by simp))
    · simp [sbfStored, GetParameter, Tx.SetParameter, Store.set, Value.toScalar?]
    · intro hs
      simp [sbfStored, h] at hs
  · rename_i sk h
    exact ⟨Benign.refl _, by simp [sbfStored, h], fun _ => rfl⟩

end Scalars

/-- `SendInvitation` throws before sending, or sends its bundle. -/
theorem SendInvitation_cases (env : Env Sc Pt) (t : Tx Sc Pt) (b : LockTxBuilder Sc Pt)
    (isSender : Bool) :
    SendInvitation env t b isSender = Flow.thrown t ∨
      ∃ a c, SendInvitation env t b isSender =
        Flow.next (sendOrFail env t (SendInvitation.msg env b isSender a c)) := by
  unfold SendInvitation
  split
  · exact Or.inl rfl
  · split
    · exact Or.inl rfl
    · exact Or.inr ⟨_, _, rfl⟩

/-- A send does not touch the store. -/
theorem sendOrFail_store (env : Env Sc Pt) (t : Tx Sc Pt) (m : SetTxParameter Sc Pt) :
    (sendOrFail env t m).store = t.store := by
  unfold sendOrFail
  cases h : env.SendTxParameters m <;> simp [Tx.SendTxParameters, Tx.OnFailed, h]

/-- A send adds the message to the trace, followed by the failure report when
the gateway refuses it. -/
theorem sendOrFail_trace (env : Env Sc Pt) (t : Tx Sc Pt) (m : SetTxParameter Sc Pt) :
    (sendOrFail env t m).trace = t.trace ++ Effect.send m ::
      (if env.SendTxParameters m then []
        else [Effect.onFailed TxFailureReason.FailedToSendParameters false]) := by
  unfold sendOrFail
  cases h : env.SendTxParameters m <;> simp [Tx.SendTxParameters, Tx.OnFailed, h]

/-- What the preparation block does: nothing but local effects (outside
`Initial`, nothing but what `GetInitialTxParams` persists), or the expiry exit,
which is taken only from `Initial`. -/
theorem prepare_cases (env : Env Sc Pt) (isSender : Bool) (s : State) (f : Frame Sc Pt) :
    (∃ f1, (UpdateImpl.prepare env isSender s f = Flow.next f1 ∨
          UpdateImpl.prepare env isSender s f = Flow.thrown f1) ∧ Benign f.tx f1.tx ∧
        (s ≠ State.Initial → BuilderOnly f.tx f1.tx)) ∨
      (∃ f1, s = State.Initial ∧ env.expired = true ∧
        UpdateImpl.prepare env isSender s f = Flow.done f1 ∧
        ∃ t0, BuilderOnly f.tx t0 ∧
          f1.tx = (t0.SetState State.Failed SubTxID.LOCK_TX).OnFailed
            TxFailureReason.TransactionExpired true) := by
  unfold UpdateImpl.prepare
  simp only [Frame.base, Frame.step_andThen]
  have h0 := Frame.after_tx f BuilderCall.GetInitialTxParams
    (env.GetInitialTxParams f.tx.store f.b.toBaseTxBuilder).2
  generalize f.after BuilderCall.GetInitialTxParams
    (env.GetInitialTxParams f.tx.store f.b.toBaseTxBuilder).2 = f1 at h0 ⊢
  split
  · exact Or.inl ⟨_, Or.inr rfl, h0.benign, fun _ => h0⟩
  split
  · rename_i h
    simp only [Bool.and_eq_true, beq_iff_eq] at h
    unfold CheckExpired
    cases he : env.expired
    · left
      simp only [Bool.false_eq_true, if_false, ite_self]
      cases isSender
      · simp only [Bool.false_eq_true, if_false, Flow.andThen]
        have h1 := Frame.after_tx f1 BuilderCall.FinalizeOutputs
          (env.FinalizeOutputs f1.tx.store f1.b.toBaseTxBuilder).2
        split
        · exact ⟨_, Or.inr rfl, h0.benign.trans h1.benign, fun hs => absurd h.2 hs⟩
        · exact ⟨_, Or.inl rfl, (h0.benign.trans h1.benign).trans
            (Benign.updateTxDescription _ _), fun hs => absurd h.2 hs⟩
      · simp only [if_true]
        have h1 := Frame.after_tx f1 BuilderCall.SelectInputs
          (env.SelectInputs f1.tx.store f1.b.toBaseTxBuilder)
        generalize f1.after BuilderCall.SelectInputs
          (env.SelectInputs f1.tx.store f1.b.toBaseTxBuilder) = f2 at h1 ⊢
        split
        · exact ⟨_, Or.inr rfl, h0.benign.trans h1.benign, fun hs => absurd h.2 hs⟩
        have h2 := Frame.after_tx f2 BuilderCall.AddChangeOutput
          (env.AddChangeOutput f2.tx.store f2.b.toBaseTxBuilder)
        generalize hf3 : f2.after BuilderCall.AddChangeOutput
          (env.AddChangeOutput f2.tx.store f2.b.toBaseTxBuilder) = f3 at h2 ⊢
        unfold Frame.step
        rw [hf3]
        split
        · exact ⟨_, Or.inr rfl, (h0.benign.trans h1.benign).trans h2.benign,
            fun hs => absurd h.2 hs⟩
        simp only [Flow.andThen]
        have h3 := Frame.after_tx f3 BuilderCall.FinalizeOutputs
          (env.FinalizeOutputs f3.tx.store f3.b.toBaseTxBuilder).2
        split
        · exact ⟨_, Or.inr rfl, ((h0.benign.trans h1.benign).trans h2.benign).trans h3.benign,
            fun hs => absurd h.2 hs⟩
        · exact ⟨_, Or.inl rfl, (((h0.benign.trans h1.benign).trans h2.benign).trans
            h3.benign).trans (Benign.updateTxDescription _ _), fun hs => absurd h.2 hs⟩
    · right
      simp only [if_true]
      exact ⟨_, h.2, trivial, rfl, f1.tx, h0, rfl⟩
  · exact Or.inl ⟨_, Or.inl rfl, h0.benign, fun _ => h0⟩

/-- A note does not touch the transaction. -/
@[simp] theorem Frame.log_tx (f : Frame Sc Pt) (c : BuilderCall) : (f.log c).tx = f.tx := rfl

/-- Loading the peer offset does not touch the transaction. -/
@[simp] theorem LoadPeerOffset_tx (f : Frame Sc Pt) : (LoadPeerOffset f).tx = f.tx := rfl

/-- A stored shared blinding factor survives local effects. -/
theorem sbfStored_of_benign {t1 t2 : Tx Sc Pt} (h : Benign t1 t2)
    (hs : sbfStored t1.store = true) : sbfStored t2.store = true := h.2.2 hs

/-- The state written by `SetState` is the state read back. -/
theorem lockState_SetState (t : Tx Sc Pt) (s : State) :
    lockState (t.SetState s SubTxID.LOCK_TX) = s := by
  simp [lockState, GetState, GetParameter, Tx.SetState, Tx.SetParameter, Store.set,
    Value.toState?]

/-- The sender's part-3 bundle does not depend on the builder. -/
theorem SendBulletProofPart3.msg_sender (b b1 : LockTxBuilder Sc Pt) :
    SendBulletProofPart3.msg b true = SendBulletProofPart3.msg b1 true := rfl

section Curve

variable [CommRing Sc] [AddCommGroup Pt] [Module Sc Pt]

/-- Part 2 of the shared proof falls through or throws, with local effects only. -/
theorem SharedUTXOProofPart2_step (env : Env Sc Pt) (s : Bool) (f : Frame Sc Pt) :
    (SharedUTXOProofPart2 env s f).Step f := by
  unfold SharedUTXOProofPart2 Flow.Step
  simp only []
  split
  · split
    · exact ⟨_, Or.inr rfl, rfl, Benign.refl _⟩
    · exact ⟨_, Or.inl rfl, rfl, Benign.setShared _ _ _ (by simp [sharedIds]) (by simp)⟩
  · exact ⟨_, Or.inl rfl, rfl, Benign.refl _⟩

/-- Part 3 of the shared proof falls through or throws, with local effects
only; the party that is not the sender leaves in its builder, as part 3 of the
shared proof, the value `CoSignPart3` computes from the builder's multi-signature,
seed and blinding factor. -/
theorem SharedUTXOProofPart3_step (env : Env Sc Pt) (s : Bool) (f : Frame Sc Pt) :
    ∃ f1, (SharedUTXOProofPart3 env s f = Flow.next f1 ∨
        SharedUTXOProofPart3 env s f = Flow.thrown f1) ∧ f1.calls = f.calls ∧
      Benign f.tx f1.tx ∧
      (s = false → (GetSharedProof f1.b).m_Part3 =
        env.CoSignPart3 (GetProofPartialMultiSig f1.b) (GetSharedSeed f1.b)
          (GetSharedBlindingFactor f1.b) 0) := by
  unfold SharedUTXOProofPart3
  simp only []
  split
  · rename_i hs
    split
    · exact ⟨_, Or.inr rfl, rfl, Benign.refl _, fun h => by simp [h] at hs⟩
    · exact ⟨_, Or.inl rfl, rfl, Benign.setShared _ _ _ (by simp [sharedIds]) (by simp),
        fun h => by simp [h] at hs⟩
  · exact ⟨_, Or.inl rfl, rfl, Benign.refl _, fun _ => rfl⟩

/-- Adding the shared output falls through or throws and leaves the transaction
alone. -/
theorem AddSharedOutput_step (env : Env Sc Pt) (a : Amount) (f : Frame Sc Pt) :
    ∃ f1, (AddSharedOutput env a f = Flow.next f1 ∨ AddSharedOutput env a f = Flow.thrown f1) ∧
      f1.calls = f.calls ∧ f1.tx = f.tx := by
  unfold AddSharedOutput
  split
  · exact ⟨_, Or.inr rfl, rfl, rfl⟩
  · exact ⟨_, Or.inl rfl, rfl, rfl⟩

/-- The sender's completion changes the transaction by nothing but what
`FinalizeSignature` persists. -/
theorem finalize_tx (env : Env Sc Pt) (amount : Amount) (f : Frame Sc Pt) :
    BuilderOnly f.tx (UpdateImpl.finalize env amount f).val.tx := by
  unfold UpdateImpl.finalize
  simp only [Frame.base, Frame.step_andThen]
  split
  · exact BuilderOnly.unchanged _
  · have h1 := Frame.after_tx (f.log BuilderCall.IsPeerSignatureValid)
      BuilderCall.FinalizeSignature (env.FinalizeSignature
        (f.log BuilderCall.IsPeerSignatureValid).tx.store
        (f.log BuilderCall.IsPeerSignatureValid).b.toBaseTxBuilder)
    generalize (f.log BuilderCall.IsPeerSignatureValid).after BuilderCall.FinalizeSignature
      (env.FinalizeSignature (f.log BuilderCall.IsPeerSignatureValid).tx.store
        (f.log BuilderCall.IsPeerSignatureValid).b.toBaseTxBuilder) = f2 at h1 ⊢
    simp only [Frame.log_tx] at h1
    split
    · exact h1
    · generalize hA : AddSharedOutput env amount _ = r7
      have h7 := hA ▸ AddSharedOutput_step env amount _
      obtain ⟨f7, h7 | h7, -, htx⟩ := h7
      · subst h7
        simp only [Flow.andThen, Flow.val, Frame.log_tx] at htx ⊢
        rw [htx]
        exact h1
      · subst h7
        simp only [Flow.andThen, Flow.val, Frame.log_tx] at htx ⊢
        rw [htx]
        exact h1

/-- Every way the exchange part of `UpdateImpl` can end, seen from the
transaction: local effects only, or local effects followed by one send and
one state write (and then by what `FinalizeSignature` persists). -/
theorem exchange_cases (env : Env Sc Pt) (isSender : Bool) (s : State) (amount : Amount)
    (f : Frame Sc Pt) :
    ∃ t1, Benign f.tx t1 ∧
      (((UpdateImpl.exchange env isSender s amount f).val.tx = t1 ∧
          ((UpdateImpl.exchange env isSender s amount f).isThrown = false →
            s ≠ State.Initial ∧
              (GetPeerPublicExcessAndNonce f.tx.store = false ∨
                (sbfStored t1.store = true ∧ s ≠ State.Invitation ∧
                  s ≠ State.SharedUTXOProofPart2)))) ∨
        ∃ m s1, BuilderOnly ((sendOrFail env t1 m).SetState s1 SubTxID.LOCK_TX)
            (UpdateImpl.exchange env isSender s amount f).val.tx ∧
          IsStepMsg env isSender s1 m ∧
          ((s = State.Initial ∧ s1 = State.Invitation ∧
              GetPeerPublicExcessAndNonce f.tx.store = false) ∨
            ((s = State.Initial ∨ s = State.Invitation) ∧ s1 = State.SharedUTXOProofPart2 ∧
              GetPeerPublicExcessAndNonce f.tx.store = true) ∨
            (s = State.SharedUTXOProofPart2 ∧ s1 = State.SharedUTXOProofPart3 ∧
              GetPeerPublicExcessAndNonce f.tx.store = true ∧ sbfStored t1.store = true ∧
              m = SendBulletProofPart3.msg
                (UpdateImpl.exchange env isSender s amount f).val.b isSender ∧
              (isSender = false →
                (GetSharedProof (UpdateImpl.exchange env isSender s amount f).val.b).m_Part3 =
                  env.CoSignPart3
                    (GetProofPartialMultiSig (UpdateImpl.exchange env isSender s amount f).val.b)
                    (GetSharedSeed (UpdateImpl.exchange env isSender s amount f).val.b)
                    (GetSharedBlindingFactor
                      (UpdateImpl.exchange env isSender s amount f).val.b) 0)))) := by
  unfold UpdateImpl.exchange
  simp only [Frame.base, Frame.step_andThen]
  have h0 := Frame.after_tx f BuilderCall.CreateKernel
    (env.CreateKernel f.tx.store f.b.toBaseTxBuilder)
  generalize f.after BuilderCall.CreateKernel
    (env.CreateKernel f.tx.store f.b.toBaseTxBuilder) = f1 at h0 ⊢
  have hr0 : GetPeerPublicExcessAndNonce f1.tx.store = GetPeerPublicExcessAndNonce f.tx.store :=
    h0.benign.ready_eq
  split
  · refine ⟨f1.tx, h0.benign, Or.inl ⟨rfl, fun h => ?_⟩⟩
    simp [Flow.isThrown] at h
  split
  · rename_i hready
    simp only [Bool.not_eq_true', hr0] at hready
    split
    · rename_i hs
      simp only [beq_iff_eq] at hs
      rcases SendInvitation_cases env f1.tx f1.b isSender with h | ⟨a, c, h⟩
      · refine ⟨f1.tx, h0.benign, Or.inl ⟨?_, ?_⟩⟩
        · simp [h, Flow.map, Flow.andThen, Flow.val]
        · simp [h, Flow.map, Flow.andThen, Flow.isThrown]
      · refine ⟨f1.tx, h0.benign, Or.inr ⟨SendInvitation.msg env f1.b isSender a c,
          State.Invitation, ?_, Or.inl ⟨rfl, _, a, c, rfl⟩, Or.inl ⟨hs, rfl, hready⟩⟩⟩
        simp only [h, Flow.map, Flow.andThen, Flow.val]
        exact BuilderOnly.unchanged _
    · rename_i hs
      simp only [beq_iff_eq] at hs
      exact ⟨f1.tx, h0.benign, Or.inl ⟨rfl, fun _ => ⟨hs, Or.inl hready⟩⟩⟩
  · rename_i hready
    simp only [Bool.not_eq_true', Bool.not_eq_false, hr0] at hready
    obtain ⟨hL, hLs, -⟩ := LoadSharedParameters_benign env
      (f1.log BuilderCall.LoadSharedParameters)
    simp only [Frame.log_tx] at hL
    generalize LoadSharedParameters env (f1.log BuilderCall.LoadSharedParameters) = fL
      at hL hLs ⊢
    have h1 := Frame.after_tx fL BuilderCall.SignPartial
      (env.SignPartial fL.tx.store fL.b.toBaseTxBuilder)
    generalize fL.after BuilderCall.SignPartial
      (env.SignPartial fL.tx.store fL.b.toBaseTxBuilder) = f2 at h1 ⊢
    have hb2 : Benign f.tx f2.tx := (h0.benign.trans hL).trans h1.benign
    have hs2 : sbfStored f2.tx.store = true := sbfStored_of_benign h1.benign hLs
    split
    · refine ⟨f2.tx, hb2, Or.inl ⟨rfl, fun h => ?_⟩⟩
      simp [Flow.isThrown] at h
    split
    · rename_i hs
      simp only [Bool.or_eq_true, beq_iff_eq] at hs
      generalize hX : SharedUTXOProofPart2 env isSender _ = r2
      have h2 : r2.Step _ := hX ▸ SharedUTXOProofPart2_step env isSender _
      obtain ⟨f3, h3 | h3, -, hb⟩ := h2
      · subst h3
        simp only [Frame.log_tx] at hb
        exact ⟨f3.tx, hb2.trans hb, Or.inr ⟨SendBulletProofPart2.msg env f3.b isSender,
          State.SharedUTXOProofPart2, BuilderOnly.unchanged _, Or.inr (Or.inl ⟨rfl, f3.b, rfl⟩),
          Or.inr (Or.inl ⟨hs, rfl, hready⟩)⟩⟩
      · subst h3
        simp only [Frame.log_tx] at hb
        refine ⟨f3.tx, hb2.trans hb, Or.inl ⟨?_, ?_⟩⟩
        · simp [Flow.andThen, Flow.val]
        · simp [Flow.andThen, Flow.isThrown]
    · rename_i hs
      simp only [Bool.or_eq_true, beq_iff_eq, not_or] at hs
      split
      · rename_i hsP
        simp only [beq_iff_eq] at hsP
        generalize hX : SharedUTXOProofPart3 env isSender _ = r3
        have h3 := hX ▸ SharedUTXOProofPart3_step env isSender _
        obtain ⟨f4, h4 | h4, -, hb, hp3⟩ := h3
        · subst h4
          simp only [Frame.log_tx, LoadPeerOffset_tx] at hb
          cases isSender
          · refine ⟨f4.tx, hb2.trans hb, Or.inr ⟨SendBulletProofPart3.msg f4.b false,
              State.SharedUTXOProofPart3, BuilderOnly.unchanged _, Or.inr (Or.inr ⟨rfl, f4.b, rfl⟩),
              Or.inr (Or.inr ⟨hsP, rfl, hready, sbfStored_of_benign hb hs2, rfl,
                fun _ => hp3 rfl⟩)⟩⟩
          · refine ⟨f4.tx, hb2.trans hb, Or.inr ⟨SendBulletProofPart3.msg f4.b true,
              State.SharedUTXOProofPart3, ?_, Or.inr (Or.inr ⟨rfl, f4.b, rfl⟩),
              Or.inr (Or.inr ⟨hsP, rfl, hready, sbfStored_of_benign hb hs2,
                SendBulletProofPart3.msg_sender _ _, fun h => by cases h⟩)⟩⟩
            simp only [Flow.andThen, if_true]
            exact finalize_tx env amount _
        · subst h4
          simp only [Frame.log_tx, LoadPeerOffset_tx] at hb
          refine ⟨f4.tx, hb2.trans hb, Or.inl ⟨?_, ?_⟩⟩
          · simp [Flow.andThen, Flow.val]
          · simp [Flow.andThen, Flow.isThrown]
      · rename_i hsP
        simp only [beq_iff_eq] at hsP
        exact ⟨f2.tx, hb2, Or.inl ⟨rfl, fun _ => ⟨hs.1, Or.inr ⟨hs2, hs.2, hsP⟩⟩⟩⟩

/-- The value carried by a mapped flow. -/
theorem Flow.map_val {α β : Type} (g : α → β) (r : Flow α) : (r.map g).val = g r.val := by
  cases r <;> rfl

/-- A mapped flow has thrown when the flow has. -/
theorem Flow.map_isThrown {α β : Type} (g : α → β) (r : Flow α) :
    (r.map g).isThrown = r.isThrown := by
  cases r <;> rfl

/-- How a call of `UpdateImpl` starts: it throws on a missing mandatory
parameter, or runs the preparation block and then the exchange part on a fresh
builder. -/
theorem frame_cases (env : Env Sc Pt) (t : Tx Sc Pt) :
    (UpdateImpl.frame env t = none ∧ ¬ MandatoryStored t.store) ∨
      ∃ isSender amount fee, MandatoryStored t.store ∧
        GetParameter Value.toBool? t.store TxParameterID.IsSender SubTxID.Default =
          some isSender ∧
        UpdateImpl.frame env t =
          some ((UpdateImpl.prepare env isSender (lockState t)
            { tx := t, b := LockTxBuilder.new amount fee, calls := [] }).andThen
            (UpdateImpl.exchange env isSender (lockState t) amount)) := by
  unfold UpdateImpl.frame MandatoryStored
  split
  · rename_i h
    exact Or.inl ⟨rfl, by simp [h]⟩
  · rename_i isSender hs
    split
    · rename_i h
      exact Or.inl ⟨rfl, by simp [h]⟩
    · rename_i amount ha
      split
      · rename_i h
        exact Or.inl ⟨rfl, by simp [h]⟩
      · rename_i fee hf
        exact Or.inr ⟨isSender, amount, fee, by simp [hs, ha, hf], hs, rfl⟩

/-- Every way one `UpdateImpl` call can end, seen from the transaction. -/
theorem UpdateImpl_cases (env : Env Sc Pt) (t : Tx Sc Pt) :
    (lockState t = State.Initial ∧ env.expired = true ∧
      ∃ t0, BuilderOnly t t0 ∧
        UpdateImpl env t = Flow.done ((t0.SetState State.Failed SubTxID.LOCK_TX).OnFailed
          TxFailureReason.TransactionExpired true)) ∨
    ∃ t1, Benign t t1 ∧
      (((UpdateImpl env t).val = t1 ∧
          ((UpdateImpl env t).isThrown = false →
            lockState t ≠ State.Initial ∧
              (GetPeerPublicExcessAndNonce t.store = false ∨
                (sbfStored t1.store = true ∧ lockState t ≠ State.Invitation ∧
                  lockState t ≠ State.SharedUTXOProofPart2)))) ∨
        ∃ m s1 isSender,
          BuilderOnly ((sendOrFail env t1 m).SetState s1 SubTxID.LOCK_TX)
            (UpdateImpl env t).val ∧
          GetParameter Value.toBool? t.store TxParameterID.IsSender SubTxID.Default =
            some isSender ∧ IsStepMsg env isSender s1 m ∧
          ((lockState t = State.Initial ∧ s1 = State.Invitation ∧
              GetPeerPublicExcessAndNonce t.store = false) ∨
            ((lockState t = State.Initial ∨ lockState t = State.Invitation) ∧
              s1 = State.SharedUTXOProofPart2 ∧
              GetPeerPublicExcessAndNonce t.store = true) ∨
            (lockState t = State.SharedUTXOProofPart2 ∧ s1 = State.SharedUTXOProofPart3 ∧
              GetPeerPublicExcessAndNonce t.store = true ∧ sbfStored t1.store = true ∧
              ∃ b, UpdateImpl.builder env t = some b ∧
                m = SendBulletProofPart3.msg b isSender ∧
                (isSender = false → (GetSharedProof b).m_Part3 =
                  env.CoSignPart3 (GetProofPartialMultiSig b) (GetSharedSeed b)
                    (GetSharedBlindingFactor b) 0)))) := by
  rcases frame_cases env t with ⟨hnone, -⟩ | ⟨isSender, amount, fee, -, hrole, hfr⟩
  · right
    refine ⟨t, Benign.refl _, Or.inl ⟨by simp [UpdateImpl, hnone, Flow.val], fun h => ?_⟩⟩
    simp [UpdateImpl, hnone, Flow.isThrown] at h
  · have hU : UpdateImpl env t = ((UpdateImpl.prepare env isSender (lockState t)
        { tx := t, b := LockTxBuilder.new amount fee, calls := [] }).andThen
        (UpdateImpl.exchange env isSender (lockState t) amount)).map fun f => f.tx := by
      simp only [UpdateImpl, hfr]
    have hB : UpdateImpl.builder env t = some ((UpdateImpl.prepare env isSender (lockState t)
        { tx := t, b := LockTxBuilder.new amount fee, calls := [] }).andThen
        (UpdateImpl.exchange env isSender (lockState t) amount)).val.b := by
      simp only [UpdateImpl.builder, hfr, Option.map_some']
    rw [hU, hB]
    rcases prepare_cases env isSender (lockState t)
      { tx := t, b := LockTxBuilder.new amount fee, calls := [] } with
      ⟨f1, hp | hp, hb, -⟩ | ⟨f1, hs, he, hp, t0, hb0, htx⟩
    · right
      rw [hp]
      simp only [Flow.andThen, Flow.map_val, Flow.map_isThrown]
      obtain ⟨t1, hb1, hcase⟩ := exchange_cases env isSender (lockState t) amount f1
      have hready : GetPeerPublicExcessAndNonce f1.tx.store =
          GetPeerPublicExcessAndNonce t.store := hb.ready_eq
      rw [hready] at hcase
      refine ⟨t1, hb.trans hb1, ?_⟩
      rcases hcase with hcase | ⟨m, s1, hv, hmsg, hrest⟩
      · exact Or.inl hcase
      · refine Or.inr ⟨m, s1, isSender, hv, hrole, hmsg, ?_⟩
        rcases hrest with h | h | ⟨h1, h2, h3, h4, h5, h6⟩
        · exact Or.inl h
        · exact Or.inr (Or.inl h)
        · exact Or.inr (Or.inr ⟨h1, h2, h3, h4, _, rfl, h5, h6⟩)
    · right
      rw [hp]
      refine ⟨f1.tx, hb, Or.inl ⟨rfl, fun h => ?_⟩⟩
      simp [Flow.andThen, Flow.map, Flow.isThrown] at h
    · left
      refine ⟨hs, he, t0, hb0, ?_⟩
      rw [hp]
      simp only [Flow.andThen, Flow.map]
      rw [htx]

/-- One `UpdateImpl` call leaves the stored state alone or moves it along one
of five edges. -/
theorem UpdateImpl_lockState (env : Env Sc Pt) (t : Tx Sc Pt) :
    lockState (UpdateImpl env t).val = lockState t ∨
      LockEdge (lockState t) (lockState (UpdateImpl env t).val) := by
  rcases UpdateImpl_cases env t with
    ⟨hs, -, t0, -, hr⟩ | ⟨t1, hb, ⟨hval, -⟩ | ⟨m, s1, _, hval, -, -, hrest⟩⟩
  · right; left
    refine ⟨hs, Or.inr (Or.inr ?_)⟩
    rw [hr]
    exact lockState_SetState t0 State.Failed
  · left
    rw [hval]
    exact hb.lockState_eq
  · rw [hval.benign.lockState_eq, lockState_SetState]
    rcases hrest with ⟨h1, h2, -⟩ | ⟨h1 | h1, h2, -⟩ | ⟨h1, h2, -⟩
    · exact Or.inr (Or.inl ⟨h1, Or.inl h2⟩)
    · exact Or.inr (Or.inl ⟨h1, Or.inr (Or.inl h2)⟩)
    · exact Or.inr (Or.inr (Or.inl ⟨h1, h2⟩))
    · exact Or.inr (Or.inr (Or.inr ⟨h1, h2⟩))

end Curve

/-! ## C1: the states seen in the store -/

/-- Dropping repetitions from a list in which neighbours are equal or joined by
an edge leaves the first state followed by a list in which neighbours are
joined by an edge. -/
theorem destutter_chain (E : State → State → Prop) (l : List State) :
    ∀ a, List.Chain (fun x y => x = y ∨ E x y) a l →
      ∃ l1, List.destutter' (· ≠ ·) a l = a :: l1 ∧ List.Chain E a l1 := by
  induction l with
  | nil => exact fun a _ => ⟨[], rfl, List.Chain.nil⟩
  | cons b l ih =>
    intro a h
    rw [List.chain_cons] at h
    obtain ⟨hab, hl⟩ := h
    by_cases hne : a ≠ b
    · obtain ⟨l1, e1, c1⟩ := ih b hl
      refine ⟨b :: l1, ?_, List.Chain.cons (hab.resolve_left hne) c1⟩
      rw [List.destutter'_cons_pos _ hne, e1]
    · have hab2 : a = b := not_not.mp hne
      subst hab2
      obtain ⟨l1, e1, c1⟩ := ih a hl
      exact ⟨l1, by rw [List.destutter'_cons_neg _ hne, e1], c1⟩

/-- No step leaves `SharedUTXOProofPart3`. -/
theorem chain_from_Part3 (l : List State)
    (h : List.Chain LockEdge State.SharedUTXOProofPart3 l) : l = [] := by
  cases l with
  | nil => rfl
  | cons b l =>
    rw [List.chain_cons] at h
    simp [LockEdge] at h

/-- No step leaves `Failed`. -/
theorem chain_from_Failed (l : List State) (h : List.Chain LockEdge State.Failed l) :
    l = [] := by
  cases l with
  | nil => rfl
  | cons b l =>
    rw [List.chain_cons] at h
    simp [LockEdge] at h

/-- From `SharedUTXOProofPart2` the only step is to `SharedUTXOProofPart3`. -/
theorem chain_from_Part2 (l : List State)
    (h : List.Chain LockEdge State.SharedUTXOProofPart2 l) :
    l = [] ∨ l = [State.SharedUTXOProofPart3] := by
  cases l with
  | nil => exact Or.inl rfl
  | cons b l =>
    rw [List.chain_cons] at h
    obtain ⟨hb, hl⟩ := h
    have hb2 : b = State.SharedUTXOProofPart3 := by simpa [LockEdge] using hb
    subst hb2
    rw [chain_from_Part3 l hl]
    exact Or.inr rfl

/-- From `Invitation` the only step is to `SharedUTXOProofPart2`. -/
theorem chain_from_Invitation (l : List State)
    (h : List.Chain LockEdge State.Invitation l) :
    l = [] ∨ l = [State.SharedUTXOProofPart2] ∨
      l = [State.SharedUTXOProofPart2, State.SharedUTXOProofPart3] := by
  cases l with
  | nil => exact Or.inl rfl
  | cons b l =>
    rw [List.chain_cons] at h
    obtain ⟨hb, hl⟩ := h
    have hb2 : b = State.SharedUTXOProofPart2 := by simpa [LockEdge] using hb
    subst hb2
    rcases chain_from_Part2 l hl with h | h <;> rw [h] <;> simp

/-- The seven ways to walk along the steps of the driver from `Initial`. -/
theorem chain_from_Initial (l : List State) (h : List.Chain LockEdge State.Initial l) :
    State.Initial :: l ∈
      [[State.Initial],
        [State.Initial, State.Invitation],
        [State.Initial, State.Invitation, State.SharedUTXOProofPart2],
        [State.Initial, State.Invitation, State.SharedUTXOProofPart2,
          State.SharedUTXOProofPart3],
        [State.Initial, State.SharedUTXOProofPart2],
        [State.Initial, State.SharedUTXOProofPart2, State.SharedUTXOProofPart3],
        [State.Initial, State.Failed]] := by
  cases l with
  | nil => simp
  | cons b l =>
    rw [List.chain_cons] at h
    obtain ⟨hb, hl⟩ := h
    have hb2 : b = State.Invitation ∨ b = State.SharedUTXOProofPart2 ∨ b = State.Failed := by
      simpa [LockEdge] using hb
    rcases hb2 with rfl | rfl | rfl
    · rcases chain_from_Invitation l hl with h | h | h <;> rw [h] <;> simp
    · rcases chain_from_Part2 l hl with h | h <;> rw [h] <;> simp
    · rw [chain_from_Failed l hl]
      simp

section Curve

variable [CommRing Sc] [AddCommGroup Pt] [Module Sc Pt]

/-- An event leaves the stored state alone or moves it along one step of the
driver. -/
theorem Event.apply_lockState (t : Tx Sc Pt) (e : Event Sc Pt) (he : e.fromPeer) :
    lockState t = lockState (e.apply t) ∨ LockEdge (lockState t) (lockState (e.apply t)) := by
  cases e with
  | update env =>
    simp only [Event.apply]
    rcases UpdateImpl_lockState env t with h | h
    · exact Or.inl h.symm
    · exact Or.inr h
  | received id v sub =>
    have hid : id ≠ TxParameterID.State := he
    have hid2 : TxParameterID.State ≠ id := fun h => hid h.symm
    left
    simp [Event.apply, lockState, GetState, GetParameter, Store.set, hid2]

/-- Along a run each observed state equals the one before it or follows it by
one step of the driver. -/
theorem observedStates_chain (es : List (Event Sc Pt)) :
    ∀ t : Tx Sc Pt, (∀ e ∈ es, e.fromPeer) →
      ∃ l, observedStates t es = lockState t :: l ∧
        List.Chain (fun x y => x = y ∨ LockEdge x y) (lockState t) l := by
  induction es with
  | nil => exact fun t _ => ⟨[], rfl, List.Chain.nil⟩
  | cons e es ih =>
    intro t hes
    obtain ⟨l, hl, hc⟩ := ih (e.apply t) fun x hx => hes x (List.mem_cons_of_mem e hx)
    refine ⟨lockState (e.apply t) :: l, ?_, List.Chain.cons
      (Event.apply_lockState t e (hes e (List.mem_cons_self e es))) hc⟩
    simp only [observedStates, hl]

end Curve

/-! ## C2: when a repeated update does nothing -/

/-- A state write does not touch the peer's public excess and nonce. -/
theorem ready_SetState (t : Tx Sc Pt) (s : State) :
    GetPeerPublicExcessAndNonce (t.SetState s SubTxID.LOCK_TX).store =
      GetPeerPublicExcessAndNonce t.store := by
  simp [GetPeerPublicExcessAndNonce, GetParameter, Tx.SetState, Tx.SetParameter, Store.set]

/-- A state write does not touch the shared blinding factor. -/
theorem sbfStored_SetState (t : Tx Sc Pt) (s : State) :
    sbfStored (t.SetState s SubTxID.LOCK_TX).store = sbfStored t.store := by
  simp [sbfStored, GetParameter, Tx.SetState, Tx.SetParameter, Store.set]

/-- A state write does not touch the mandatory parameters. -/
theorem MandatoryStored_SetState (t : Tx Sc Pt) (s : State) :
    MandatoryStored (t.SetState s SubTxID.LOCK_TX).store ↔ MandatoryStored t.store := by
  simp [MandatoryStored, GetParameter, Tx.SetState, Tx.SetParameter, Store.set]

/-- Local effects do not touch the mandatory parameters. -/
theorem Benign.mandatory {t1 t2 : Tx Sc Pt} (h : Benign t1 t2) :
    MandatoryStored t2.store ↔ MandatoryStored t1.store := by
  simp [MandatoryStored, GetParameter,
    h.1 SubTxID.Default TxParameterID.IsSender (by decide) rfl,
    h.1 SubTxID.Default TxParameterID.Amount (by decide) rfl,
    h.1 SubTxID.Default TxParameterID.Fee (by decide) rfl]

section Curve

variable [CommRing Sc] [AddCommGroup Pt] [Module Sc Pt]

/-- A call that returns normally found its mandatory parameters. -/
theorem MandatoryStored_of_done (env : Env Sc Pt) (t t1 : Tx Sc Pt)
    (h : UpdateImpl env t = Flow.done t1) : MandatoryStored t.store := by
  rcases frame_cases env t with ⟨hnone, -⟩ | ⟨_, _, _, hm, -⟩
  · simp [UpdateImpl, hnone] at h
  · exact hm

/-- Where a call that returned normally leaves the transaction: past
`Initial`, and failed on expiry, or without the peer's public excess and nonce,
or in `SharedUTXOProofPart2` with them, or past `SharedUTXOProofPart2` with the
shared blinding factor stored. -/
theorem after_done (env : Env Sc Pt) (t t1 : Tx Sc Pt) (h : UpdateImpl env t = Flow.done t1) :
    MandatoryStored t1.store ∧ lockState t1 ≠ State.Initial ∧
      ((lockState t = State.Initial ∧ lockState t1 = State.Failed) ∨
        GetPeerPublicExcessAndNonce t1.store = false ∨
        (lockState t1 = State.SharedUTXOProofPart2 ∧
          GetPeerPublicExcessAndNonce t1.store = true) ∨
        (sbfStored t1.store = true ∧ lockState t1 ≠ State.Invitation ∧
          lockState t1 ≠ State.SharedUTXOProofPart2)) := by
  have hm := MandatoryStored_of_done env t t1 h
  have hval : (UpdateImpl env t).val = t1 := by rw [h]; rfl
  have hnt : (UpdateImpl env t).isThrown = false := by rw [h]; rfl
  rcases UpdateImpl_cases env t with
    ⟨hs, -, t0, hb0, hr⟩ | ⟨t2, hb, ⟨hv, hrest⟩ | ⟨m, s1, isSender, hv, -, -, hrest⟩⟩
  · rw [hr] at h
    simp only [Flow.done.injEq] at h
    subst h
    have hF : lockState ((t0.SetState State.Failed SubTxID.LOCK_TX).OnFailed
        TxFailureReason.TransactionExpired true) = State.Failed :=
      lockState_SetState t0 State.Failed
    refine ⟨?_, by rw [hF]; decide, Or.inl ⟨hs, hF⟩⟩
    exact (MandatoryStored_SetState t0 State.Failed).mpr (hb0.benign.mandatory.mpr hm)
  · rw [hval] at hv
    subst hv
    obtain ⟨h1, h2⟩ := hrest hnt
    rw [hb.lockState_eq, hb.ready_eq]
    refine ⟨hb.mandatory.mpr hm, h1, ?_⟩
    rcases h2 with h2 | h2
    · exact Or.inr (Or.inl h2)
    · exact Or.inr (Or.inr (Or.inr h2))
  · rw [hval] at hv
    have hstate : lockState t1 = s1 := by
      rw [hv.benign.lockState_eq]
      exact lockState_SetState _ _
    have hready : GetPeerPublicExcessAndNonce t1.store =
        GetPeerPublicExcessAndNonce t.store := by
      rw [hv.benign.ready_eq, ready_SetState, sendOrFail_store, hb.ready_eq]
    have hsbf : sbfStored t1.store = sbfStored t2.store := by
      rw [hv.sbfStored_eq, sbfStored_SetState, sendOrFail_store]
    have hmand : MandatoryStored t1.store := by
      rw [hv.benign.mandatory, MandatoryStored_SetState]
      unfold MandatoryStored
      rw [sendOrFail_store]
      exact hb.mandatory.mpr hm
    rw [hstate, hready, hsbf]
    refine ⟨hmand, ?_, ?_⟩
    · rcases hrest with ⟨-, h2, -⟩ | ⟨-, h2, -⟩ | ⟨-, h2, -⟩ <;> rw [h2] <;> decide
    · rcases hrest with ⟨-, -, h3⟩ | ⟨-, h2, h3⟩ | ⟨-, h2, -, h4, -⟩
      · exact Or.inr (Or.inl h3)
      · exact Or.inr (Or.inr (Or.inl ⟨h2, h3⟩))
      · exact Or.inr (Or.inr (Or.inr ⟨h4, by rw [h2]; decide, by rw [h2]; decide⟩))

/-- A transaction past `Initial` that lacks the peer's public excess and nonce,
or is in neither `Invitation` nor `SharedUTXOProofPart2`, is changed by
`UpdateImpl` by local effects only: nothing is sent and the state stays. -/
theorem UpdateImpl_quiescent (env : Env Sc Pt) (t : Tx Sc Pt)
    (h1 : lockState t ≠ State.Initial)
    (h2 : GetPeerPublicExcessAndNonce t.store = false ∨
      (lockState t ≠ State.Invitation ∧ lockState t ≠ State.SharedUTXOProofPart2)) :
    Benign t (UpdateImpl env t).val := by
  rcases UpdateImpl_cases env t with
    ⟨hs, -⟩ | ⟨t2, hb, ⟨hv, -⟩ | ⟨m, s1, isSender, -, -, -, hrest⟩⟩
  · exact absurd hs h1
  · rw [hv]
    exact hb
  · exfalso
    rcases hrest with ⟨h, -⟩ | ⟨h, -, hr⟩ | ⟨h, -, hr, -⟩
    · exact h1 h
    · rcases h2 with h2 | h2
      · rw [h2] at hr
        cases hr
      · rcases h with h | h
        · exact h1 h
        · exact h2.1 h
    · rcases h2 with h2 | h2
      · rw [h2] at hr
        cases hr
      · exact h2.2 h

end Curve

/-! ## Messages and traces -/

/-- A send adds exactly its message to the messages sent. -/
theorem sendOrFail_sent (env : Env Sc Pt) (t : Tx Sc Pt) (m : SetTxParameter Sc Pt) :
    (sendOrFail env t m).sent = t.sent ++ [m] := by
  unfold Tx.sent
  rw [sendOrFail_trace]
  cases env.SendTxParameters m <;> simp

/-- A state write sends nothing. -/
theorem sent_SetState (t : Tx Sc Pt) (s : State) (sub : SubTxID) :
    (t.SetState s sub).sent = t.sent := by
  simp [Tx.sent, Tx.SetState, Tx.SetParameter]

/-- Local effects contain no send. -/
theorem filterMap_send_of_local (w : List (Effect Sc Pt))
    (h : ∀ e ∈ w, Effect.isLocal e = true) :
    (w.filterMap fun e => match e with
      | Effect.send m => some m
      | _ => none) = [] := by
  rw [List.filterMap_eq_nil_iff]
  intro e he
  have := h e he
  cases e <;> simp_all [Effect.isLocal]

/-- Local effects send nothing. -/
theorem Benign.sent_eq {t1 t2 : Tx Sc Pt} (h : Benign t1 t2) : t2.sent = t1.sent := by
  obtain ⟨-, ⟨w, hw, hl⟩, -⟩ := h
  unfold Tx.sent
  rw [hw, List.filterMap_append, filterMap_send_of_local w hl, List.append_nil]

/-- Local effects are neither sends nor state writes. -/
theorem filter_of_local (w : List (Effect Sc Pt)) (h : ∀ e ∈ w, Effect.isLocal e = true) :
    w.filter Effect.isSendOrStateWrite = [] := by
  rw [List.filter_eq_nil_iff]
  intro e he
  have := h e he
  cases e <;> simp_all [Effect.isLocal, Effect.isSendOrStateWrite]

/-! ## C10: the verdict of `FinalizeOutputs` -/

section Curve

variable [CommRing Sc] [AddCommGroup Pt] [Module Sc Pt]

/-- Unless the transaction has expired, no `UpdateImpl` call writes `Failed`:
whatever `FinalizeOutputs` reports, a state other than `Failed` stays other
than `Failed`. -/
theorem UpdateImpl_not_failed (env : Env Sc Pt) (t : Tx Sc Pt) (hexp : env.expired = false)
    (hs : lockState t ≠ State.Failed) : lockState (UpdateImpl env t).val ≠ State.Failed := by
  rcases UpdateImpl_cases env t with
    ⟨-, he, -⟩ | ⟨t1, hb, ⟨hv, -⟩ | ⟨m, s1, _, hv, -, -, hrest⟩⟩
  · rw [hexp] at he
    cases he
  · rw [hv, hb.lockState_eq]
    exact hs
  · rw [hv.benign.lockState_eq, lockState_SetState]
    rcases hrest with ⟨-, h, -⟩ | ⟨-, h, -⟩ | ⟨-, h, -⟩ <;> rw [h] <;> decide

end Curve

/-! ## C3: the sender's signature check -/

/-- A step of the base builder adds its name to the log. -/
theorem Frame.after_calls (f : Frame Sc Pt) (c : BuilderCall) (r : BaseStep Sc Pt) :
    (f.after c r).calls = f.calls ++ [c] := rfl

/-- A note adds its name to the log. -/
theorem Frame.log_calls (f : Frame Sc Pt) (c : BuilderCall) :
    (f.log c).calls = f.calls ++ [c] := rfl

/-- Loading the peer offset leaves the log alone. -/
theorem LoadPeerOffset_calls (f : Frame Sc Pt) : (LoadPeerOffset f).calls = f.calls := rfl

/-- A step of the base builder does not check the peer's signature. -/
theorem step_keeps (f : Frame Sc Pt) (c : BuilderCall) (r : BaseStep Sc Pt)
    (hc : c ≠ BuilderCall.IsPeerSignatureValid)
    (hf : BuilderCall.IsPeerSignatureValid ∉ f.calls) :
    BuilderCall.IsPeerSignatureValid ∉ (f.step c r).val.calls := by
  unfold Frame.step
  split <;> simp [Flow.val, Frame.after_calls, hf, hc.symm]

/-- Sequencing two pieces of code that do not check the peer's signature. -/
theorem andThen_keeps (r : Flow (Frame Sc Pt)) (k : Frame Sc Pt → Flow (Frame Sc Pt))
    (hr : BuilderCall.IsPeerSignatureValid ∉ r.val.calls)
    (hk : ∀ f1 : Frame Sc Pt, BuilderCall.IsPeerSignatureValid ∉ f1.calls →
      BuilderCall.IsPeerSignatureValid ∉ (k f1).val.calls) :
    BuilderCall.IsPeerSignatureValid ∉ (r.andThen k).val.calls := by
  cases r with
  | next a => exact hk a hr
  | done a => exact hr
  | thrown a => exact hr

/-- The preparation block does not check the peer's signature. -/
theorem prepare_calls (env : Env Sc Pt) (isSender : Bool) (s : State) (f : Frame Sc Pt)
    (hf : BuilderCall.IsPeerSignatureValid ∉ f.calls) :
    BuilderCall.IsPeerSignatureValid ∉ (UpdateImpl.prepare env isSender s f).val.calls := by
  unfold UpdateImpl.prepare
  simp only [Frame.base]
  refine andThen_keeps _ _ (step_keeps _ _ _ (by decide) hf) fun f1 h1 => ?_
  split
  · split
    · exact h1
    · refine andThen_keeps _ _ ?_ fun f2 h2 => ?_
      · split
        · exact andThen_keeps _ _ (step_keeps _ _ _ (by decide) h1) fun f2 h2 =>
            step_keeps _ _ _ (by decide) h2
        · exact h1
      · refine andThen_keeps _ _ (step_keeps _ _ _ (by decide) h2) fun f3 h3 => ?_
        simp only [ite_self]
        exact h3
  · exact h1

/-- Loading the shared parameters leaves the log alone. -/
theorem LoadSharedParameters_calls [CommRing Sc] (env : Env Sc Pt) (f : Frame Sc Pt) :
    (LoadSharedParameters env f).calls = f.calls := by
  unfold LoadSharedParameters
  split <;> rfl

section Curve

variable [CommRing Sc] [AddCommGroup Pt] [Module Sc Pt]

/-- When the exchange part has checked the peer's signature, the state
`SharedUTXOProofPart3` is already in the store, whatever the check answered. -/
theorem exchange_check_reached (env : Env Sc Pt) (isSender : Bool) (s : State)
    (amount : Amount) (f : Frame Sc Pt)
    (hf : BuilderCall.IsPeerSignatureValid ∉ f.calls)
    (h : BuilderCall.IsPeerSignatureValid ∈
      (UpdateImpl.exchange env isSender s amount f).val.calls) :
    lockState (UpdateImpl.exchange env isSender s amount f).val.tx =
      State.SharedUTXOProofPart3 := by
  revert h
  unfold UpdateImpl.exchange
  simp only [Frame.base, Frame.step_andThen]
  have h0 : BuilderCall.IsPeerSignatureValid ∉ (f.after BuilderCall.CreateKernel
      (env.CreateKernel f.tx.store f.b.toBaseTxBuilder)).calls := by
    simp [Frame.after_calls, hf]
  generalize f.after BuilderCall.CreateKernel
    (env.CreateKernel f.tx.store f.b.toBaseTxBuilder) = f1 at h0 ⊢
  split
  · exact fun h => absurd h h0
  split
  · split
    · rcases SendInvitation_cases env f1.tx f1.b isSender with h | ⟨a, c, h⟩ <;>
        simp only [h, Flow.map, Flow.andThen, Flow.val] <;> exact fun hm => absurd hm h0
    · exact fun h => absurd h h0
  · have hL : BuilderCall.IsPeerSignatureValid ∉
        (LoadSharedParameters env (f1.log BuilderCall.LoadSharedParameters)).calls := by
      simp [LoadSharedParameters_calls, Frame.log_calls, h0]
    generalize LoadSharedParameters env (f1.log BuilderCall.LoadSharedParameters) = fL
      at hL ⊢
    have h1 : BuilderCall.IsPeerSignatureValid ∉ (fL.after BuilderCall.SignPartial
        (env.SignPartial fL.tx.store fL.b.toBaseTxBuilder)).calls := by
      simp [Frame.after_calls, hL]
    generalize fL.after BuilderCall.SignPartial
      (env.SignPartial fL.tx.store fL.b.toBaseTxBuilder) = f2 at h1 ⊢
    split
    · exact fun h => absurd h h1
    split
    · generalize hX : SharedUTXOProofPart2 env isSender _ = r2
      have h2 : r2.Step _ := hX ▸ SharedUTXOProofPart2_step env isSender _
      obtain ⟨f3, h3 | h3, hc, -⟩ := h2 <;> subst h3 <;>
        simp only [Flow.andThen, Flow.val, hc, Frame.log_calls] <;>
        intro hm <;> simp [h1] at hm
    · split
      · generalize hX : SharedUTXOProofPart3 env isSender _ = r3
        have h3 := hX ▸ SharedUTXOProofPart3_step env isSender _
        obtain ⟨f4, h4 | h4, hc, -, -⟩ := h3
        · subst h4
          cases isSender
          · simp only [Flow.andThen, Flow.val, hc, Frame.log_calls, LoadPeerOffset_calls,
              Bool.false_eq_true, if_false]
            intro hm
            simp [h1] at hm
          · simp only [Flow.andThen, if_true]
            intro _
            rw [(finalize_tx env amount _).benign.lockState_eq]
            exact lockState_SetState _ _
        · subst h4
          simp only [Flow.andThen, Flow.val, hc, Frame.log_calls, LoadPeerOffset_calls]
          intro hm
          simp [h1] at hm
      · simp only [Flow.val, Frame.log_calls, LoadPeerOffset_calls]
        intro hm
        simp [h1] at hm

/-- In every environment and for every transaction: when a call of
`UpdateImpl` has checked the peer's signature, the state it leaves in the store
is `SharedUTXOProofPart3`, whatever the check answered. The check cannot keep
the state the call was entered in. -/
theorem check_follows_state_write (env : Env Sc Pt) (t : Tx Sc Pt)
    (h : BuilderCall.IsPeerSignatureValid ∈ UpdateImpl.calls env t) :
    lockState (UpdateImpl env t).val = State.SharedUTXOProofPart3 := by
  rcases frame_cases env t with ⟨hnone, -⟩ | ⟨isSender, amount, fee, -, -, hfr⟩
  · simp [UpdateImpl.calls, hnone] at h
  · have hU : UpdateImpl env t = ((UpdateImpl.prepare env isSender (lockState t)
        { tx := t, b := LockTxBuilder.new amount fee, calls := [] }).andThen
        (UpdateImpl.exchange env isSender (lockState t) amount)).map fun f => f.tx := by
      simp only [UpdateImpl, hfr]
    have hC : UpdateImpl.calls env t = ((UpdateImpl.prepare env isSender (lockState t)
        { tx := t, b := LockTxBuilder.new amount fee, calls := [] }).andThen
        (UpdateImpl.exchange env isSender (lockState t) amount)).val.calls := by
      simp only [UpdateImpl.calls, hfr]
    rw [hC] at h
    rw [hU, Flow.map_val]
    have hp := prepare_calls env isSender (lockState t)
      { tx := t, b := LockTxBuilder.new amount fee, calls := [] } (by simp)
    revert h hp
    cases UpdateImpl.prepare env isSender (lockState t)
      { tx := t, b := LockTxBuilder.new amount fee, calls := [] } with
    | next f1 =>
      intro h hp
      exact exchange_check_reached env isSender (lockState t) amount f1 hp h
    | done f1 => exact fun h hp => absurd h hp
    | thrown f1 => exact fun h hp => absurd h hp

end Curve

/-! ## The base builder's steps -/

/-- A step of the base builder that throws aborts the update: when input
selection throws, the initiator's first update ends by the exception right
after `SelectInputs`, with nothing sent and the state still `Initial`. -/
theorem select_inputs_throw_aborts :
    (UpdateImpl noInputsEnv (⟨initiatorStore, []⟩ : Tx Int Int)).isThrown = true ∧
      UpdateImpl.calls noInputsEnv (⟨initiatorStore, []⟩ : Tx Int Int) =
        [BuilderCall.GetInitialTxParams, BuilderCall.SelectInputs] ∧
      (UpdateImpl noInputsEnv (⟨initiatorStore, []⟩ : Tx Int Int)).val.sent = [] ∧
      lockState (UpdateImpl noInputsEnv (⟨initiatorStore, []⟩ : Tx Int Int)).val =
        State.Initial := by
  refine ⟨by decide, by decide, by decide, by decide⟩

/-- What the base builder persists reaches the store and the trace: with a
base builder that persists its kernel data and its partial signature, the
responder's first update writes them, in the order of the calls, around the
shared parameters and before the send. -/
theorem persisted_outputs_reach_the_store :
    (UpdateImpl persistingEnv (⟨responderStore, []⟩ : Tx Int Int)).val.store
        SubTxID.LOCK_TX (TxParameterID.Builder 2) = some (Value.scalar 50) ∧
      ((UpdateImpl persistingEnv (⟨responderStore, []⟩ : Tx Int Int)).val.trace.map
          fun e => match e with
            | Effect.setParameter id _ _ => some id
            | _ => none) =
        [none, some (TxParameterID.Builder 0), some (TxParameterID.Builder 1), none,
          some TxParameterID.SharedCoinID, some TxParameterID.SharedBlindingFactor,
          some TxParameterID.SharedSeed, some (TxParameterID.Builder 2), none,
          some TxParameterID.State] := by
  refine ⟨by decide, by decide⟩

/-! ## The claims -/

/-- Each of the seven sequences of states is seen in a run in which no update
throws: the initiator before its first update, after it, and after each of its
two further updates once the responder's answer has arrived; the responder
after each of its two updates; and the initiator whose transaction has
expired. -/
theorem lock_paths_occur :
    (observedStates (⟨initiatorStore, []⟩ : Tx Int Int) []).destutter (· ≠ ·) =
        [State.Initial] ∧
      (observedStates (⟨initiatorStore, []⟩ : Tx Int Int)
          (initiatorRun.take 1)).destutter (· ≠ ·) =
        [State.Initial, State.Invitation] ∧
      (observedStates (⟨initiatorStore, []⟩ : Tx Int Int)
          (initiatorRun.take 5)).destutter (· ≠ ·) =
        [State.Initial, State.Invitation, State.SharedUTXOProofPart2] ∧
      (observedStates (⟨initiatorStore, []⟩ : Tx Int Int) initiatorRun).destutter (· ≠ ·) =
        [State.Initial, State.Invitation, State.SharedUTXOProofPart2,
          State.SharedUTXOProofPart3] ∧
      Event.anyThrown (⟨initiatorStore, []⟩ : Tx Int Int) initiatorRun = false ∧
      (observedStates (⟨responderStore, []⟩ : Tx Int Int)
          [Event.update sampleEnv]).destutter (· ≠ ·) =
        [State.Initial, State.SharedUTXOProofPart2] ∧
      (observedStates (⟨responderStore, []⟩ : Tx Int Int)
          [Event.update sampleEnv, Event.update sampleEnv]).destutter (· ≠ ·) =
        [State.Initial, State.SharedUTXOProofPart2, State.SharedUTXOProofPart3] ∧
      Event.anyThrown (⟨responderStore, []⟩ : Tx Int Int)
        [Event.update sampleEnv, Event.update sampleEnv] = false ∧
      (observedStates (⟨initiatorStore, []⟩ : Tx Int Int)
          [Event.update expiredEnv]).destutter (· ≠ ·) =
        [State.Initial, State.Failed] ∧
      Event.anyThrown (⟨initiatorStore, []⟩ : Tx Int Int) [Event.update expiredEnv] =
        false := by
  refine ⟨by decide, by decide, by decide, by decide, by decide, by decide, by decide,
    by decide, by decide, by decide⟩

/-- C1 (as the code has it). In any run of `UpdateImpl` calls, in any
environments and roles, interleaved with arbitrary arriving peer parameters
(none of them the `State` parameter), that starts in `Initial`, the distinct
LockTx states held in the store, read before the first event and after each
one, are in order one of exactly seven sequences: a non-empty prefix of
`Initial, Invitation, SharedUTXOProofPart2, SharedUTXOProofPart3`, or a
non-empty prefix of `Initial, SharedUTXOProofPart2, SharedUTXOProofPart3`
(`Invitation` skipped), or `Initial, Failed`. -/
theorem C1_states_follow_lock_paths [CommRing Sc] [AddCommGroup Pt] [Module Sc Pt]
    (t : Tx Sc Pt) (es : List (Event Sc Pt))
    (hstart : lockState t = State.Initial) (hpeer : ∀ e ∈ es, e.fromPeer) :
    (observedStates t es).destutter (· ≠ ·) ∈
      [[State.Initial],
        [State.Initial, State.Invitation],
        [State.Initial, State.Invitation, State.SharedUTXOProofPart2],
        [State.Initial, State.Invitation, State.SharedUTXOProofPart2,
          State.SharedUTXOProofPart3],
        [State.Initial, State.SharedUTXOProofPart2],
        [State.Initial, State.SharedUTXOProofPart2, State.SharedUTXOProofPart3],
        [State.Initial, State.Failed]] := by
  obtain ⟨l, hl, hc⟩ := observedStates_chain es t hpeer
  obtain ⟨l1, e1, c1⟩ := destutter_chain LockEdge l _ hc
  rw [hl, List.destutter_cons', e1, hstart]
  rw [hstart] at c1
  exact chain_from_Initial l1 c1

/-- C1, witness: the initiator's three updates, none of which throws, with the
responder's answer arriving after the first; the states seen are `Initial,
Invitation, SharedUTXOProofPart2, SharedUTXOProofPart3`. -/
theorem C1_states_follow_lock_paths_witness :
    lockState (⟨initiatorStore, []⟩ : Tx Int Int) = State.Initial ∧
      (∀ e ∈ initiatorRun, e.fromPeer) ∧
      (observedStates (⟨initiatorStore, []⟩ : Tx Int Int) initiatorRun).destutter (· ≠ ·) ∈
        [[State.Initial],
        [State.Initial, State.Invitation],
        [State.Initial, State.Invitation, State.SharedUTXOProofPart2],
        [State.Initial, State.Invitation, State.SharedUTXOProofPart2,
          State.SharedUTXOProofPart3],
        [State.Initial, State.SharedUTXOProofPart2],
        [State.Initial, State.SharedUTXOProofPart2, State.SharedUTXOProofPart3],
        [State.Initial, State.Failed]] ∧
      (observedStates (⟨initiatorStore, []⟩ : Tx Int Int) initiatorRun).destutter (· ≠ ·) =
        [State.Initial, State.Invitation, State.SharedUTXOProofPart2,
          State.SharedUTXOProofPart3] ∧
      Event.anyThrown (⟨initiatorStore, []⟩ : Tx Int Int) initiatorRun = false :=
  have hpeer : ∀ e ∈ initiatorRun, e.fromPeer := by
    intro e he
    simp only [initiatorRun, List.mem_cons, List.mem_singleton, List.not_mem_nil,
      or_false] at he
    rcases he with rfl | rfl | rfl | rfl | rfl | rfl <;> simp [Event.fromPeer]
  ⟨by decide, hpeer, C1_states_follow_lock_paths _ _ (by decide) hpeer, by decide, by decide⟩

/-- C1, counterexample: the responder, whose store already holds the
initiator's public excess and nonce, goes from `Initial` straight to
`SharedUTXOProofPart2`; the states seen are not a prefix of the claimed list. -/
theorem C1_counterexample :
    (observedStates (⟨responderStore, []⟩ : Tx Int Int) [Event.update sampleEnv]).destutter
        (· ≠ ·) = [State.Initial, State.SharedUTXOProofPart2] ∧
      ¬ List.IsPrefix ((observedStates (⟨responderStore, []⟩ : Tx Int Int)
          [Event.update sampleEnv]).destutter (· ≠ ·))
        [State.Initial, State.Invitation, State.SharedUTXOProofPart2,
          State.SharedUTXOProofPart3, State.Completed] := by
  have h : (observedStates (⟨responderStore, []⟩ : Tx Int Int)
      [Event.update sampleEnv]).destutter (· ≠ ·) =
      [State.Initial, State.SharedUTXOProofPart2] := by decide
  rw [h]
  exact ⟨rfl, by decide⟩

/-- After the expiry exit a further update is not confined to what the base
builder persists: the responder whose transaction expired in `Initial` holds
the peer's public excess and nonce, so its next update generates the shared
coin and writes the shared parameters (it still sends nothing and leaves the
state `Failed`). -/
theorem update_after_expiry_writes :
    UpdateImpl expiredEnv (⟨responderStore, []⟩ : Tx Int Int) =
        Flow.done (UpdateImpl expiredEnv (⟨responderStore, []⟩ : Tx Int Int)).val ∧
      lockState (UpdateImpl expiredEnv (⟨responderStore, []⟩ : Tx Int Int)).val =
        State.Failed ∧
      sbfStored (UpdateImpl expiredEnv (⟨responderStore, []⟩ : Tx Int Int)).val.store =
        false ∧
      sbfStored (UpdateImpl sampleEnv
        (UpdateImpl expiredEnv (⟨responderStore, []⟩ : Tx Int Int)).val).val.store = true ∧
      Effect.generateSharedCoin 100 ∈ (UpdateImpl sampleEnv
        (UpdateImpl expiredEnv (⟨responderStore, []⟩ : Tx Int Int)).val).val.trace := by
  refine ⟨rfl, by decide, by decide, by decide, by decide⟩

/-- C3, the code at the failing input: the sender in `SharedUTXOProofPart2`
with the responder's bundle stored and a peer signature that
`IsPeerSignatureValid` rejects. The call sends the part-3 bundle and writes
`SharedUTXOProofPart3` before it reaches the signature check; the check then
makes it return, without `FinalizeSignature` or `AddSharedOutput`, but with
the state already changed. -/
theorem C3_invalid_signature_after_state_write :
    GetParameter Value.toBool? senderPart2Store TxParameterID.IsSender SubTxID.Default =
        some true ∧
      lockState (⟨senderPart2Store, []⟩ : Tx Int Int) = State.SharedUTXOProofPart2 ∧
      (∀ st b, badSignatureEnv.IsPeerSignatureValid st b = false) ∧
      UpdateImpl.calls badSignatureEnv (⟨senderPart2Store, []⟩ : Tx Int Int) =
        [BuilderCall.GetInitialTxParams, BuilderCall.CreateKernel,
          BuilderCall.LoadSharedParameters, BuilderCall.SignPartial,
          BuilderCall.LoadPeerOffset, BuilderCall.SharedUTXOProofPart3,
          BuilderCall.IsPeerSignatureValid] ∧
      UpdateImpl badSignatureEnv (⟨senderPart2Store, []⟩ : Tx Int Int) =
        Flow.done (UpdateImpl badSignatureEnv (⟨senderPart2Store, []⟩ : Tx Int Int)).val ∧
      lockState (UpdateImpl badSignatureEnv (⟨senderPart2Store, []⟩ : Tx Int Int)).val =
        State.SharedUTXOProofPart3 ∧
      lockState (UpdateImpl badSignatureEnv (⟨senderPart2Store, []⟩ : Tx Int Int)).val ≠
        lockState (⟨senderPart2Store, []⟩ : Tx Int Int) ∧
      (UpdateImpl badSignatureEnv (⟨senderPart2Store, []⟩ : Tx Int Int)).val.trace.filter
          Effect.isSendOrStateWrite =
        [Effect.send [(TxParameterID.SubTxIndex, Value.subTx SubTxID.LOCK_TX)],
          Effect.setParameter TxParameterID.State (Value.state State.SharedUTXOProofPart3)
            SubTxID.LOCK_TX] := by
  refine ⟨by decide, by decide, fun _ _ => rfl, by decide, rfl, by decide, by decide,
    by decide⟩

/-- C4. No message handed to the gateway by `SendInvitation`,
`SendBulletProofPart2` or `SendBulletProofPart3`, in either role, has a
parameter with id `SharedBlindingFactor` or `SharedSeed`, and whatever is sent
under `PeerPublicSharedBlindingFactor` is the point `b·G` that
`GetPublicSharedBlindingFactor` returns for the builder's blinding factor `b`. -/
theorem C4_blinding_factor_stays_home [CommRing Sc] [AddCommGroup Pt] [Module Sc Pt]
    (env : Env Sc Pt) (st : Store Sc Pt)
    (b : LockTxBuilder Sc Pt) (isSender : Bool) :
    ∀ m ∈ (SendInvitation env ⟨st, []⟩ b isSender).val.sent ++
        (SendBulletProofPart2 env ⟨st, []⟩ b isSender).sent ++
        (SendBulletProofPart3 env ⟨st, []⟩ b isSender).sent,
      ∀ p ∈ m, p.1 ≠ TxParameterID.SharedBlindingFactor ∧ p.1 ≠ TxParameterID.SharedSeed ∧
        (p.1 = TxParameterID.PeerPublicSharedBlindingFactor →
          p.2 = Value.point (GetPublicSharedBlindingFactor env b) ∧
            GetPublicSharedBlindingFactor env b = b.m_SharedBlindingFactor • env.G) := by
  intro m hm p hp
  have h2 : (SendBulletProofPart2 env ⟨st, []⟩ b isSender).sent =
      [SendBulletProofPart2.msg env b isSender] := by
    rw [SendBulletProofPart2, sendOrFail_sent]
    rfl
  have h3 : (SendBulletProofPart3 env ⟨st, []⟩ b isSender).sent =
      [SendBulletProofPart3.msg b isSender] := by
    rw [SendBulletProofPart3, sendOrFail_sent]
    rfl
  rw [h2, h3] at hm
  simp only [List.mem_append, List.mem_singleton] at hm
  rcases hm with (hm | hm) | hm
  · rcases SendInvitation_cases env ⟨st, []⟩ b isSender with h | ⟨a, c, h⟩
    · rw [h] at hm
      simp [Flow.val, Tx.sent] at hm
    · rw [h] at hm
      simp only [Flow.val] at hm
      rw [sendOrFail_sent] at hm
      simp only [Tx.sent, List.filterMap_nil, List.nil_append, List.mem_singleton] at hm
      subst hm
      simp only [SendInvitation.msg, AddParameter, List.nil_append, List.cons_append,
        List.mem_cons, List.not_mem_nil, or_false] at hp
      rcases hp with rfl | rfl | rfl | rfl | rfl | rfl | rfl | rfl | rfl | rfl <;> simp
  · subst hm
    cases isSender
    · simp only [SendBulletProofPart2.msg, AddParameter, List.nil_append, List.cons_append,
        List.mem_cons, List.not_mem_nil, or_false, Bool.false_eq_true, if_false] at hp
      rcases hp with rfl | rfl | rfl | rfl | rfl | rfl | rfl | rfl <;>
        simp [GetPublicSharedBlindingFactor, GetSharedBlindingFactor]
    · simp only [SendBulletProofPart2.msg, AddParameter, List.nil_append, List.cons_append,
        List.mem_cons, List.not_mem_nil, or_false, if_true] at hp
      rcases hp with rfl | rfl | rfl | rfl <;> simp
  · subst hm
    cases isSender
    · simp only [SendBulletProofPart3.msg, AddParameter, List.nil_append, List.cons_append,
        List.mem_cons, List.not_mem_nil, or_false, Bool.not_false, if_true] at hp
      rcases hp with rfl | rfl <;> simp
    · simp only [SendBulletProofPart3.msg, AddParameter, List.nil_append,
        List.mem_singleton, Bool.not_true, Bool.false_eq_true, if_false] at hp
      subst hp
      simp

/-- C4, witness: in the responder's part-2 bundle the parameter sent under
`PeerPublicSharedBlindingFactor` is `12·G` for its blinding factor 12. -/
theorem C4_blinding_factor_stays_home_witness :
    (TxParameterID.PeerPublicSharedBlindingFactor, (Value.point 12 : Value Int Int)).1 ≠
        TxParameterID.SharedBlindingFactor ∧
      (TxParameterID.PeerPublicSharedBlindingFactor, (Value.point 12 : Value Int Int)).1 ≠
        TxParameterID.SharedSeed ∧
      ((TxParameterID.PeerPublicSharedBlindingFactor, (Value.point 12 : Value Int Int)).1 =
          TxParameterID.PeerPublicSharedBlindingFactor →
        (TxParameterID.PeerPublicSharedBlindingFactor, (Value.point 12 : Value Int Int)).2 =
            Value.point (GetPublicSharedBlindingFactor sampleEnv responderBuilder) ∧
          GetPublicSharedBlindingFactor sampleEnv responderBuilder =
            responderBuilder.m_SharedBlindingFactor • sampleEnv.G) :=
  C4_blinding_factor_stays_home sampleEnv responderStore responderBuilder false
    (SendBulletProofPart2.msg sampleEnv responderBuilder false) (by decide)
    (TxParameterID.PeerPublicSharedBlindingFactor, Value.point 12) (by decide)

/-- C5. With the peer's public share `P` in the store, `GetSharedCommitment`
returns `a·H + b·G + P` for the builder's amount `a` and blinding factor `b`;
hence two parties on the same curve and amount, each storing the other's
public share, both get `a·H + (b + b')·G`. -/
theorem C5_shared_commitment [CommRing Sc] [AddCommGroup Pt] [Module Sc Pt]
    (env env' : Env Sc Pt) (st st' : Store Sc Pt)
    (b b' : LockTxBuilder Sc Pt) (P : Pt)
    (hP : GetParameter Value.toPoint? st TxParameterID.PeerPublicSharedBlindingFactor
      SubTxID.LOCK_TX = some P) :
    GetSharedCommitment env st b =
        some (GetAmount b • env.H + GetSharedBlindingFactor b • env.G + P) ∧
      (env'.G = env.G → env'.H = env.H → GetAmount b' = GetAmount b →
        P = GetPublicSharedBlindingFactor env' b' →
        GetParameter Value.toPoint? st' TxParameterID.PeerPublicSharedBlindingFactor
          SubTxID.LOCK_TX = some (GetPublicSharedBlindingFactor env b) →
        GetSharedCommitment env st b = some (GetAmount b • env.H +
            (GetSharedBlindingFactor b + GetSharedBlindingFactor b') • env.G) ∧
          GetSharedCommitment env' st' b' = some (GetAmount b • env.H +
            (GetSharedBlindingFactor b + GetSharedBlindingFactor b') • env.G)) := by
  refine ⟨by simp [GetSharedCommitment, hP, GetPublicSharedBlindingFactor], ?_⟩
  intro hG hH ha hshare hP'
  subst hshare
  refine ⟨?_, ?_⟩
  · simp only [GetSharedCommitment, hP, GetPublicSharedBlindingFactor, Option.map_some', hG,
      zero_add, add_smul, add_assoc]
  · simp only [GetSharedCommitment, hP', GetPublicSharedBlindingFactor, Option.map_some', hG,
      hH, ha, zero_add, add_smul, add_assoc]
    rw [add_comm (GetSharedBlindingFactor b' • env.G)]

/-- C5, witness: sender (blinding factor 21) and responder (blinding factor 12)
over amount 100 both get `100·H + 33·G`. -/
theorem C5_shared_commitment_witness :
    GetParameter Value.toPoint? senderShareStore TxParameterID.PeerPublicSharedBlindingFactor
        SubTxID.LOCK_TX = some 12 ∧
      GetSharedCommitment sampleEnv senderShareStore senderBuilder =
        some (100 • (1000 : Int) + ((21 : Int) + 12) • (1 : Int)) ∧
      GetSharedCommitment sampleEnv responderShareStore responderBuilder =
        some (100 • (1000 : Int) + ((21 : Int) + 12) • (1 : Int)) :=
  ⟨by decide,
    (C5_shared_commitment sampleEnv sampleEnv senderShareStore responderShareStore
      senderBuilder responderBuilder 12 (by decide)).2 rfl rfl rfl (by decide) (by decide)⟩

/-- C6. With the two swap parameters in the store, `SendInvitation` hands the
gateway exactly one message, made of exactly these ten parameters in this
order: the builder's amount and fee, the flipped role bit, the swap amount and
coin, `SubTxIndex = LOCK_TX`, the builder's minimum height, the protocol
version and the builder's own public excess and nonce. -/
theorem C6_invitation_contents (env : Env Sc Pt) (t : Tx Sc Pt) (b : LockTxBuilder Sc Pt)
    (isSender : Bool) (a : Amount) (c : AtomicSwapCoin)
    (ha : GetParameter Value.toAmount? t.store TxParameterID.AtomicSwapAmount
      SubTxID.Default = some a)
    (hc : GetParameter Value.toSwapCoin? t.store TxParameterID.AtomicSwapCoin
      SubTxID.Default = some c) :
    ∃ t1, SendInvitation env t b isSender = Flow.next t1 ∧
      t1.sent = t.sent ++
        [[(TxParameterID.Amount, Value.amount (GetAmount b)),
          (TxParameterID.Fee, Value.amount (GetFee b)),
          (TxParameterID.IsSender, Value.bool (!isSender)),
          (TxParameterID.AtomicSwapAmount, Value.amount a),
          (TxParameterID.AtomicSwapCoin, Value.swapCoin c),
          (TxParameterID.SubTxIndex, Value.subTx SubTxID.LOCK_TX),
          (TxParameterID.MinHeight, Value.amount (GetMinHeight b)),
          (TxParameterID.PeerProtoVersion, Value.protoVersion env.s_ProtoVersion),
          (TxParameterID.PeerPublicExcess, Value.point (GetPublicExcess b)),
          (TxParameterID.PeerPublicNonce, Value.point (GetPublicNonce b))]] := by
  refine ⟨sendOrFail env t (SendInvitation.msg env b isSender a c),
    by simp only [SendInvitation, ha, hc], ?_⟩
  rw [sendOrFail_sent]
  rfl

/-- C6, witness: the initiator's invitation. -/
theorem C6_invitation_contents_witness :
    ∃ t1, SendInvitation sampleEnv (⟨initiatorStore, []⟩ : Tx Int Int) senderBuilder true =
        Flow.next t1 ∧
      t1.sent = (⟨initiatorStore, []⟩ : Tx Int Int).sent ++
        [[(TxParameterID.Amount, Value.amount (GetAmount senderBuilder)),
          (TxParameterID.Fee, Value.amount (GetFee senderBuilder)),
          (TxParameterID.IsSender, Value.bool (!true)),
          (TxParameterID.AtomicSwapAmount, Value.amount 5),
          (TxParameterID.AtomicSwapCoin, Value.swapCoin 0),
          (TxParameterID.SubTxIndex, Value.subTx SubTxID.LOCK_TX),
          (TxParameterID.MinHeight, Value.amount (GetMinHeight senderBuilder)),
          (TxParameterID.PeerProtoVersion, Value.protoVersion sampleEnv.s_ProtoVersion),
          (TxParameterID.PeerPublicExcess, Value.point (GetPublicExcess senderBuilder)),
          (TxParameterID.PeerPublicNonce, Value.point (GetPublicNonce senderBuilder))]] :=
  C6_invitation_contents sampleEnv ⟨initiatorStore, []⟩ senderBuilder true 5 0 (by decide)
    (by decide)

/-- C7. `SendBulletProofPart2` hands the gateway exactly one message. It
starts with `SubTxIndex = LOCK_TX`, the builder's partial signature and its
offset; the sender adds exactly `PeerSharedBulletProofMSig`, the responder
exactly the protocol version, its public excess and nonce, its public shared
blinding factor and part 2 of its shared proof. -/
theorem C7_part2_contents [CommRing Sc] [AddCommGroup Pt] [Module Sc Pt]
    (env : Env Sc Pt) (t : Tx Sc Pt) (b : LockTxBuilder Sc Pt)
    (isSender : Bool) :
    (SendBulletProofPart2 env t b isSender).sent = t.sent ++
      [[(TxParameterID.SubTxIndex, Value.subTx SubTxID.LOCK_TX),
          (TxParameterID.PeerSignature, Value.scalar (GetPartialSignature b)),
          (TxParameterID.PeerOffset, Value.scalar (GetOffset b))] ++
        (if isSender then
          [(TxParameterID.PeerSharedBulletProofMSig, Value.msig (GetProofPartialMultiSig b))]
        else
          [(TxParameterID.PeerProtoVersion, Value.protoVersion env.s_ProtoVersion),
            (TxParameterID.PeerPublicExcess, Value.point (GetPublicExcess b)),
            (TxParameterID.PeerPublicNonce, Value.point (GetPublicNonce b)),
            (TxParameterID.PeerPublicSharedBlindingFactor,
              Value.point (GetPublicSharedBlindingFactor env b)),
            (TxParameterID.PeerSharedBulletProofPart2,
              Value.part2 (GetSharedProof b).m_Part2)])] := by
  unfold SendBulletProofPart2
  rw [sendOrFail_sent]
  cases isSender <;> rfl

/-- C8 (as the code has it). An `UpdateImpl` call entered in state
`SharedUTXOProofPart2` either sends nothing and stays there, or moves to
`SharedUTXOProofPart3` and hands the gateway exactly one message, in either
role: it always carries `SubTxIndex = LOCK_TX`, and it carries
`PeerSharedBulletProofPart3` exactly when the party is not the sender. The
value sent under it is part 3 of the shared proof of the builder this call
leaves, which is what `CoSignPart3` computes from that builder's
multi-signature, seed and blinding factor. -/
theorem C8_part3_contents [CommRing Sc] [AddCommGroup Pt] [Module Sc Pt]
    (env : Env Sc Pt) (t : Tx Sc Pt) (isSender : Bool)
    (hrole : GetParameter Value.toBool? t.store TxParameterID.IsSender SubTxID.Default =
      some isSender)
    (hstate : lockState t = State.SharedUTXOProofPart2) :
    ((UpdateImpl env t).val.sent = t.sent ∧
        lockState (UpdateImpl env t).val = State.SharedUTXOProofPart2) ∨
      ∃ b : LockTxBuilder Sc Pt, UpdateImpl.builder env t = some b ∧
        (UpdateImpl env t).val.sent = t.sent ++
          [(TxParameterID.SubTxIndex, Value.subTx SubTxID.LOCK_TX) ::
            (if isSender then []
              else [(TxParameterID.PeerSharedBulletProofPart3,
                Value.part3 (GetSharedProof b).m_Part3)])] ∧
        (isSender = false → (GetSharedProof b).m_Part3 =
          env.CoSignPart3 (GetProofPartialMultiSig b) (GetSharedSeed b)
            (GetSharedBlindingFactor b) 0) ∧
        lockState (UpdateImpl env t).val = State.SharedUTXOProofPart3 := by
  rcases UpdateImpl_cases env t with
    ⟨hs, -⟩ | ⟨t1, hb, ⟨hv, -⟩ | ⟨m, s1, isSender1, hv, hrole1, -, hrest⟩⟩
  · rw [hstate] at hs
    cases hs
  · left
    rw [hv]
    exact ⟨hb.sent_eq, hb.lockState_eq.trans hstate⟩
  · right
    rw [hrole] at hrole1
    simp only [Option.some.injEq] at hrole1
    subst hrole1
    rw [hstate] at hrest
    rcases hrest with ⟨h, -⟩ | ⟨h | h, -⟩ | ⟨-, hs1, -, -, b, hbld, hm, hp3⟩
    · cases h
    · cases h
    · cases h
    · subst hs1
      refine ⟨b, hbld, ?_, hp3, ?_⟩
      · rw [hv.benign.sent_eq, sent_SetState, sendOrFail_sent, hb.sent_eq, hm]
        cases isSender <;> rfl
      · rw [hv.benign.lockState_eq]
        exact lockState_SetState _ _

/-- C8, witness: the responder in `SharedUTXOProofPart2` (its store after its
first update); its second update sends part 3 of its shared proof, 101. -/
theorem C8_part3_contents_witness :
    GetParameter Value.toBool? (UpdateImpl sampleEnv
        (⟨responderStore, []⟩ : Tx Int Int)).val.store TxParameterID.IsSender
        SubTxID.Default = some false ∧
      lockState (UpdateImpl sampleEnv (⟨responderStore, []⟩ : Tx Int Int)).val =
        State.SharedUTXOProofPart2 ∧
      (((UpdateImpl sampleEnv (UpdateImpl sampleEnv
            (⟨responderStore, []⟩ : Tx Int Int)).val).val.sent =
          (UpdateImpl sampleEnv (⟨responderStore, []⟩ : Tx Int Int)).val.sent ∧
        lockState (UpdateImpl sampleEnv (UpdateImpl sampleEnv
            (⟨responderStore, []⟩ : Tx Int Int)).val).val = State.SharedUTXOProofPart2) ∨
      ∃ b : LockTxBuilder Int Int,
        UpdateImpl.builder sampleEnv (UpdateImpl sampleEnv
          (⟨responderStore, []⟩ : Tx Int Int)).val = some b ∧
        (UpdateImpl sampleEnv (UpdateImpl sampleEnv
            (⟨responderStore, []⟩ : Tx Int Int)).val).val.sent =
          (UpdateImpl sampleEnv (⟨responderStore, []⟩ : Tx Int Int)).val.sent ++
            [(TxParameterID.SubTxIndex, Value.subTx SubTxID.LOCK_TX) ::
              (if false then []
                else [(TxParameterID.PeerSharedBulletProofPart3,
                  Value.part3 (GetSharedProof b).m_Part3)])] ∧
        (false = false → (GetSharedProof b).m_Part3 =
          sampleEnv.CoSignPart3 (GetProofPartialMultiSig b) (GetSharedSeed b)
            (GetSharedBlindingFactor b) 0) ∧
        lockState (UpdateImpl sampleEnv (UpdateImpl sampleEnv
            (⟨responderStore, []⟩ : Tx Int Int)).val).val = State.SharedUTXOProofPart3) ∧
      lockState (UpdateImpl sampleEnv (UpdateImpl sampleEnv
          (⟨responderStore, []⟩ : Tx Int Int)).val).val = State.SharedUTXOProofPart3 ∧
      (UpdateImpl sampleEnv (UpdateImpl sampleEnv
          (⟨responderStore, []⟩ : Tx Int Int)).val).val.sent =
        (UpdateImpl sampleEnv (⟨responderStore, []⟩ : Tx Int Int)).val.sent ++
          [[(TxParameterID.SubTxIndex, Value.subTx SubTxID.LOCK_TX),
            (TxParameterID.PeerSharedBulletProofPart3, Value.part3 101)]] :=
  ⟨by decide, by decide,
    C8_part3_contents sampleEnv (UpdateImpl sampleEnv (⟨responderStore, []⟩ : Tx Int Int)).val
      false (by decide) (by decide), by decide, by decide⟩

/-- C8, counterexample: the sender in `SharedUTXOProofPart2` also hands a
message to the gateway on its way to `SharedUTXOProofPart3`; it goes from the
sender to the responder and holds `SubTxIndex` alone, without
`PeerSharedBulletProofPart3`. -/
theorem C8_counterexample :
    GetParameter Value.toBool? senderPart2Store TxParameterID.IsSender SubTxID.Default =
        some true ∧
      lockState (⟨senderPart2Store, []⟩ : Tx Int Int) = State.SharedUTXOProofPart2 ∧
      lockState (UpdateImpl sampleEnv (⟨senderPart2Store, []⟩ : Tx Int Int)).val =
        State.SharedUTXOProofPart3 ∧
      (UpdateImpl sampleEnv (⟨senderPart2Store, []⟩ : Tx Int Int)).val.sent =
        [[(TxParameterID.SubTxIndex, Value.subTx SubTxID.LOCK_TX)]] ∧
      ∀ m ∈ (UpdateImpl sampleEnv (⟨senderPart2Store, []⟩ : Tx Int Int)).val.sent,
        ∀ p ∈ m, p.1 ≠ TxParameterID.PeerSharedBulletProofPart3 := by
  refine ⟨by decide, by decide, by decide, by decide, by decide⟩

/-- C9 (as the code has it). In the ordered trace of one `UpdateImpl` call,
the sends and the writes of `State` are, in order: nothing; or the single
write of `Failed` on expiry; or one send followed by one write of the state it
advances to (`Invitation`, `SharedUTXOProofPart2` or `SharedUTXOProofPart3`).
The message is handed to the gateway before the state is written. -/
theorem C9_send_then_state_write [CommRing Sc] [AddCommGroup Pt] [Module Sc Pt]
    (env : Env Sc Pt) (t : Tx Sc Pt) :
    ∃ w, (UpdateImpl env t).val.trace = t.trace ++ w ∧
      (w.filter Effect.isSendOrStateWrite = [] ∨
        w.filter Effect.isSendOrStateWrite =
          [Effect.setParameter TxParameterID.State (Value.state State.Failed)
            SubTxID.LOCK_TX] ∨
        ∃ m s1, (s1 = State.Invitation ∨ s1 = State.SharedUTXOProofPart2 ∨
            s1 = State.SharedUTXOProofPart3) ∧
          w.filter Effect.isSendOrStateWrite =
            [Effect.send m,
              Effect.setParameter TxParameterID.State (Value.state s1) SubTxID.LOCK_TX]) := by
  rcases UpdateImpl_cases env t with
    ⟨-, -, t0, hb0, hr⟩ | ⟨t1, hb, ⟨hv, -⟩ | ⟨m, s1, _, hv, -, -, hrest⟩⟩
  · obtain ⟨-, ⟨w0, hw0, hl0⟩, -⟩ := hb0.benign
    refine ⟨w0 ++ [Effect.setParameter TxParameterID.State (Value.state State.Failed)
      SubTxID.LOCK_TX, Effect.onFailed TxFailureReason.TransactionExpired true], ?_,
      Or.inr (Or.inl ?_)⟩
    · rw [hr]
      simp [Flow.val, Tx.OnFailed, Tx.SetState, Tx.SetParameter, hw0]
    · rw [List.filter_append, filter_of_local w0 hl0]
      simp [List.filter, Effect.isSendOrStateWrite]
  · obtain ⟨-, ⟨w, hw, hl⟩, -⟩ := hb
    exact ⟨w, by rw [hv, hw], Or.inl (filter_of_local w hl)⟩
  · obtain ⟨-, ⟨w, hw, hl⟩, -⟩ := hb
    obtain ⟨-, ⟨w2, hw2, hl2⟩, -⟩ := hv.benign
    refine ⟨w ++ Effect.send m :: ((if env.SendTxParameters m then []
        else [Effect.onFailed TxFailureReason.FailedToSendParameters false]) ++
      [Effect.setParameter TxParameterID.State (Value.state s1) SubTxID.LOCK_TX]) ++ w2, ?_,
      Or.inr (Or.inr ⟨m, s1, ?_, ?_⟩)⟩
    · rw [hw2]
      simp only [Tx.SetState, Tx.SetParameter, sendOrFail_trace, hw, List.append_assoc,
        List.cons_append]
    · rcases hrest with ⟨-, h, -⟩ | ⟨-, h, -⟩ | ⟨-, h, -⟩
      · exact Or.inl h
      · exact Or.inr (Or.inl h)
      · exact Or.inr (Or.inr h)
    · rw [List.filter_append, List.filter_append, filter_of_local w hl,
        filter_of_local w2 hl2]
      cases env.SendTxParameters m <;> simp [List.filter, Effect.isSendOrStateWrite]

/-- C9, counterexample: in the initiator's first update the invitation is
handed to the gateway before any `State` write; the write of `Invitation`
comes after the send. -/
theorem C9_counterexample :
    (UpdateImpl sampleEnv (⟨initiatorStore, []⟩ : Tx Int Int)).val.trace =
        [Effect.updateTxDescription TxStatus.InProgress] ++
          Effect.send (SendInvitation.msg sampleEnv (LockTxBuilder.new 100 1) true 5 0) ::
          [Effect.setParameter TxParameterID.State (Value.state State.Invitation)
            SubTxID.LOCK_TX] ∧
      ¬ WriteThenSend (UpdateImpl sampleEnv (⟨initiatorStore, []⟩ : Tx Int Int)).val.trace := by
  have h : (UpdateImpl sampleEnv (⟨initiatorStore, []⟩ : Tx Int Int)).val.trace =
      [Effect.updateTxDescription TxStatus.InProgress] ++
        Effect.send (SendInvitation.msg sampleEnv (LockTxBuilder.new 100 1) true 5 0) ::
        [Effect.setParameter TxParameterID.State (Value.state State.Invitation)
          SubTxID.LOCK_TX] := by decide
  refine ⟨h, fun hw => ?_⟩
  obtain ⟨s, hs⟩ := hw _ _ _ h
  simp at hs

/-- C10, the code at the failing input: the initiating sender in `Initial`
with no initial parameters and a `FinalizeOutputs` that reports the
transaction too big. `FinalizeOutputs` is called and returns false, yet the
invitation is sent and the state becomes `Invitation`, not `Failed`. -/
theorem C10_too_big_is_ignored :
    lockState (⟨initiatorStore, []⟩ : Tx Int Int) = State.Initial ∧
      BuilderCall.FinalizeOutputs ∈
        UpdateImpl.calls tooBigEnv (⟨initiatorStore, []⟩ : Tx Int Int) ∧
      (∀ st b, (tooBigEnv.FinalizeOutputs st b).1 = false) ∧
      lockState (UpdateImpl tooBigEnv (⟨initiatorStore, []⟩ : Tx Int Int)).val =
        State.Invitation ∧
      (UpdateImpl tooBigEnv (⟨initiatorStore, []⟩ : Tx Int Int)).val.sent =
        [SendInvitation.msg tooBigEnv (LockTxBuilder.new 100 1) true 5 0] := by
  refine ⟨by decide, by decide, fun _ _ => rfl, by decide, by decide⟩

/-! ## C11: the verdict of `IsValid` -/

/-- The update does not depend on what `IsValid` answers about the assembled
transaction. -/
theorem UpdateImpl_ignores_IsValid [CommRing Sc] [AddCommGroup Pt] [Module Sc Pt]
    (env : Env Sc Pt) (g : Transaction Sc Pt → Bool) (t : Tx Sc Pt) :
    UpdateImpl { env with IsValid := g } t = UpdateImpl env t := rfl

/-! ## C14: sums of coin values modulo `2^64` -/

/-- Adding the coin values one by one with wrap-around gives the wrapped sum of
all of them. -/
theorem foldl_add64 (coins : List Coin) (acc : Nat) :
    coins.foldl (fun sum c => add64 sum c.m_ID.m_Value) (acc % 2 ^ 64) =
      (acc + (coins.map fun c => c.m_ID.m_Value).sum) % 2 ^ 64 := by
  induction coins generalizing acc with
  | nil => simp
  | cons c cs ih =>
    simp only [List.foldl_cons, List.map_cons, List.sum_cons]
    have h : add64 (acc % 2 ^ 64) c.m_ID.m_Value = (acc % 2 ^ 64 + c.m_ID.m_Value) % 2 ^ 64 := rfl
    have hM : (2 : Nat) ^ 64 = 18446744073709551616 := by norm_num
    rw [h, ih (acc % 2 ^ 64 + c.m_ID.m_Value), hM]
    omega

/-! ## C13: a refused send -/

section Curve

variable [CommRing Sc] [AddCommGroup Pt] [Module Sc Pt]

/-- A part-3 bundle is never a part-2 bundle: it is shorter. -/
theorem part3_msg_ne_part2_msg (env : Env Sc Pt) (b b1 : LockTxBuilder Sc Pt) (s s1 : Bool) :
    SendBulletProofPart3.msg b1 s1 ≠ SendBulletProofPart2.msg env b s := by
  intro h
  have hl := congrArg List.length h
  cases s <;> cases s1 <;>
    simp [SendBulletProofPart3.msg, SendBulletProofPart2.msg, AddParameter] at hl

/-- A call after which exactly one more message has been sent took one of the
three steps: local effects, then the send, then the state write (followed at
most by what `FinalizeSignature` persists). -/
theorem UpdateImpl_advance_of_sent (env : Env Sc Pt) (t : Tx Sc Pt) (m : SetTxParameter Sc Pt)
    (hsent : (UpdateImpl env t).val.sent = t.sent ++ [m]) :
    ∃ t1 s1 isSender, Benign t t1 ∧
      BuilderOnly ((sendOrFail env t1 m).SetState s1 SubTxID.LOCK_TX) (UpdateImpl env t).val ∧
      IsStepMsg env isSender s1 m ∧
      ((lockState t = State.Initial ∧ s1 = State.Invitation) ∨
        ((lockState t = State.Initial ∨ lockState t = State.Invitation) ∧
          s1 = State.SharedUTXOProofPart2) ∨
        (lockState t = State.SharedUTXOProofPart2 ∧ s1 = State.SharedUTXOProofPart3)) := by
  rcases UpdateImpl_cases env t with
    ⟨-, -, t0, hb0, hr⟩ | ⟨t1, hb, ⟨hv, -⟩ | ⟨m0, s1, isSender, hv, -, hmsg, hrest⟩⟩
  · rw [hr] at hsent
    have h0 : ((t0.SetState State.Failed SubTxID.LOCK_TX).OnFailed
        TxFailureReason.TransactionExpired true).sent = t.sent := by
      rw [← hb0.benign.sent_eq]
      simp [Tx.sent, Tx.OnFailed, Tx.SetState, Tx.SetParameter]
    simp only [Flow.val] at hsent
    rw [h0] at hsent
    simp at hsent
  · rw [hv, hb.sent_eq] at hsent
    simp at hsent
  · have h0 : m0 = m := by
      rw [hv.benign.sent_eq, sent_SetState, sendOrFail_sent, hb.sent_eq] at hsent
      simpa using hsent
    subst h0
    refine ⟨t1, s1, isSender, hb, hv, hmsg, ?_⟩
    rcases hrest with ⟨h1, h2, -⟩ | ⟨h1, h2, -⟩ | ⟨h1, h2, -⟩
    · exact Or.inl ⟨h1, h2⟩
    · exact Or.inr (Or.inl ⟨h1, h2⟩)
    · exact Or.inr (Or.inr ⟨h1, h2⟩)

/-- The call that follows a send, with nothing written in between, does not
send that message again: it sends nothing, or, after a part-2 bundle, the
part-3 bundle. -/
theorem next_call_does_not_resend (env1 env2 : Env Sc Pt) (t t1 : Tx Sc Pt)
    (m : SetTxParameter Sc Pt) (hfirst : UpdateImpl env1 t = Flow.done t1)
    (hsent : t1.sent = t.sent ++ [m]) :
    ∃ new, (UpdateImpl env2 t1).val.sent = t1.sent ++ new ∧ m ∉ new := by
  have hval : (UpdateImpl env1 t).val = t1 := by rw [hfirst]; rfl
  obtain ⟨t2, s1, isSender, -, hv, hmsg, hstep⟩ :=
    UpdateImpl_advance_of_sent env1 t m (hval ▸ hsent)
  have hs1 : lockState t1 = s1 := by
    rw [← hval, hv.benign.lockState_eq]
    exact lockState_SetState _ _
  obtain ⟨-, hne, hcase⟩ := after_done env1 t t1 hfirst
  have hrest : ∀ h : lockState t1 = State.Invitation ∨
      lockState t1 = State.SharedUTXOProofPart3,
      ∃ new, (UpdateImpl env2 t1).val.sent = t1.sent ++ new ∧ m ∉ new := by
    intro h
    have hq : GetPeerPublicExcessAndNonce t1.store = false ∨
        (lockState t1 ≠ State.Invitation ∧ lockState t1 ≠ State.SharedUTXOProofPart2) := by
      rcases hcase with ⟨-, h1⟩ | h1 | ⟨h1, -⟩ | ⟨-, h1⟩
      · exact Or.inr ⟨by rw [h1]; decide, by rw [h1]; decide⟩
      · exact Or.inl h1
      · rcases h with h | h <;> rw [h] at h1 <;> cases h1
      · exact Or.inr h1
    refine ⟨[], ?_, by simp⟩
    rw [(UpdateImpl_quiescent env2 t1 hne hq).sent_eq]
    simp
  rcases hstep with ⟨-, h2⟩ | ⟨-, h2⟩ | ⟨-, h2⟩
  · exact hrest (Or.inl (hs1.trans h2))
  · subst h2
    rcases hmsg with ⟨h, -⟩ | ⟨-, b, hm⟩ | ⟨h, -⟩
    · cases h
    · rcases UpdateImpl_cases env2 t1 with
        ⟨h0, -⟩ | ⟨t3, hb, ⟨hv3, -⟩ | ⟨m3, s3, isSender3, hv3, -, hmsg3, hrest3⟩⟩
      · rw [hs1] at h0
        cases h0
      · exact ⟨[], by rw [hv3, hb.sent_eq]; simp, by simp⟩
      · refine ⟨[m3], by rw [hv3.benign.sent_eq, sent_SetState, sendOrFail_sent, hb.sent_eq],
          ?_⟩
        rw [hs1] at hrest3
        have hs3 : s3 = State.SharedUTXOProofPart3 := by
          rcases hrest3 with ⟨h, -⟩ | ⟨h | h, -⟩ | ⟨-, h, -⟩
          · cases h
          · cases h
          · cases h
          · exact h
        subst hs3
        rcases hmsg3 with ⟨h, -⟩ | ⟨h, -⟩ | ⟨-, b3, hm3⟩
        · cases h
        · cases h
        · rw [hm, hm3]
          simp only [List.mem_singleton]
          exact fun h => part3_msg_ne_part2_msg env1 b b3 isSender isSender3 h.symm
    · cases h
  · exact hrest (Or.inr (hs1.trans h2))

end Curve

/-! ## The claims, continued -/

/-- C11, the code at the failing input: the sender in `SharedUTXOProofPart2`
with a valid peer signature and an assembled transaction that `IsValid`
rejects. The transaction is assembled and checked, yet no failure is reported
through `OnFailed` and the state ends as `SharedUTXOProofPart3`, not `Failed`. -/
theorem C11_invalid_transaction_is_ignored :
    GetParameter Value.toBool? senderPart2Store TxParameterID.IsSender SubTxID.Default =
        some true ∧
      lockState (⟨senderPart2Store, []⟩ : Tx Int Int) = State.SharedUTXOProofPart2 ∧
      (∀ st b, invalidTxEnv.IsPeerSignatureValid st b = true) ∧
      (∀ tx, invalidTxEnv.IsValid tx = false) ∧
      BuilderCall.CreateTransaction ∈
        UpdateImpl.calls invalidTxEnv (⟨senderPart2Store, []⟩ : Tx Int Int) ∧
      lockState (UpdateImpl invalidTxEnv (⟨senderPart2Store, []⟩ : Tx Int Int)).val =
        State.SharedUTXOProofPart3 ∧
      (∀ notify, Effect.onFailed TxFailureReason.InvalidTransaction notify ∉
        (UpdateImpl invalidTxEnv (⟨senderPart2Store, []⟩ : Tx Int Int)).val.trace) := by
  refine ⟨by decide, by decide, fun _ _ => rfl, fun _ => rfl, by decide, by decide, ?_⟩
  intro notify
  cases notify <;> decide

/-- C12. Over a store without `SharedBlindingFactor`, `LoadSharedParameters`
generates a coin and writes `SharedCoinID`, `SharedBlindingFactor` and
`SharedSeed`; run again on any other builder over the resulting store it
loads the same blinding factor, seed and coin identifier, leaves the
transaction exactly as it was (nothing written, no coin generated), and each
of the two calls adds minus the shared blinding factor to its builder's
offset. -/
theorem C12_reload_shared_parameters [CommRing Sc] (env env2 : Env Sc Pt) (f : Frame Sc Pt)
    (b2 : LockTxBuilder Sc Pt) (calls2 : List BuilderCall)
    (habsent : GetParameter Value.toScalar? f.tx.store TxParameterID.SharedBlindingFactor
      SubTxID.LOCK_TX = none) :
    (LoadSharedParameters env f).tx.trace = f.tx.trace ++
        [Effect.generateSharedCoin (GetAmount f.b),
          Effect.setParameter TxParameterID.SharedCoinID
            (Value.coinID (LoadSharedParameters env f).b.m_SharedCoin.m_ID) SubTxID.LOCK_TX,
          Effect.setParameter TxParameterID.SharedBlindingFactor
            (Value.scalar (LoadSharedParameters env f).b.m_SharedBlindingFactor)
            SubTxID.LOCK_TX,
          Effect.setParameter TxParameterID.SharedSeed
            (Value.seed (LoadSharedParameters env f).b.m_SharedSeed) SubTxID.LOCK_TX] ∧
      (LoadSharedParameters env2
          { tx := (LoadSharedParameters env f).tx, b := b2, calls := calls2 }).b.m_SharedBlindingFactor =
        (LoadSharedParameters env f).b.m_SharedBlindingFactor ∧
      (LoadSharedParameters env2
          { tx := (LoadSharedParameters env f).tx, b := b2, calls := calls2 }).b.m_SharedSeed =
        (LoadSharedParameters env f).b.m_SharedSeed ∧
      (LoadSharedParameters env2
          { tx := (LoadSharedParameters env f).tx, b := b2, calls := calls2 }).b.m_SharedCoin.m_ID =
        (LoadSharedParameters env f).b.m_SharedCoin.m_ID ∧
      (LoadSharedParameters env2
          { tx := (LoadSharedParameters env f).tx, b := b2, calls := calls2 }).tx =
        (LoadSharedParameters env f).tx ∧
      (LoadSharedParameters env f).b.m_Offset =
        f.b.m_Offset + -(LoadSharedParameters env f).b.m_SharedBlindingFactor ∧
      (LoadSharedParameters env2
          { tx := (LoadSharedParameters env f).tx, b := b2, calls := calls2 }).b.m_Offset =
        b2.m_Offset + -(LoadSharedParameters env f).b.m_SharedBlindingFactor := by
  have h1 : LoadSharedParameters env f =
      { f with
        tx := (((f.tx.generateSharedCoin env (GetAmount f.b)).2.SetParameter
            TxParameterID.SharedCoinID
            (Value.coinID (env.generateSharedCoin (GetAmount f.b)).m_ID) SubTxID.LOCK_TX).SetParameter
            TxParameterID.SharedBlindingFactor
            (Value.scalar (env.switchCommitmentCreate (env.generateSharedCoin (GetAmount f.b)).m_ID))
            SubTxID.LOCK_TX).SetParameter TxParameterID.SharedSeed
            (Value.seed (env.GenerateSeed
              (env.switchCommitmentCreate (env.generateSharedCoin (GetAmount f.b)).m_ID)
              (GetAmount f.b))) SubTxID.LOCK_TX
        b := { f.b with
          m_SharedCoin := env.generateSharedCoin (GetAmount f.b)
          m_SharedBlindingFactor :=
            env.switchCommitmentCreate (env.generateSharedCoin (GetAmount f.b)).m_ID
          m_SharedSeed := env.GenerateSeed
            (env.switchCommitmentCreate (env.generateSharedCoin (GetAmount f.b)).m_ID)
            (GetAmount f.b)
          m_Offset := f.b.m_Offset +
            -env.switchCommitmentCreate (env.generateSharedCoin (GetAmount f.b)).m_ID } } := by
    simp only [LoadSharedParameters, habsent, Tx.generateSharedCoin]
  rw [h1]
  refine ⟨?_, ?_, ?_, ?_, ?_, rfl, ?_⟩
  · simp [Tx.SetParameter, Tx.generateSharedCoin]
  all_goals
    simp [LoadSharedParameters, GetParameter, Tx.SetParameter, Store.set, Value.toScalar?,
      Value.toSeed?, Value.toCoinID?]

/-- C12, witness: a fresh builder over the empty store, then a second fresh
builder over the store the first call left. -/
theorem C12_reload_shared_parameters_witness :
    (LoadSharedParameters sampleEnv freshFrame).tx.trace = freshFrame.tx.trace ++
        [Effect.generateSharedCoin (GetAmount freshFrame.b),
          Effect.setParameter TxParameterID.SharedCoinID
            (Value.coinID (LoadSharedParameters sampleEnv freshFrame).b.m_SharedCoin.m_ID)
            SubTxID.LOCK_TX,
          Effect.setParameter TxParameterID.SharedBlindingFactor
            (Value.scalar (LoadSharedParameters sampleEnv freshFrame).b.m_SharedBlindingFactor)
            SubTxID.LOCK_TX,
          Effect.setParameter TxParameterID.SharedSeed
            (Value.seed (LoadSharedParameters sampleEnv freshFrame).b.m_SharedSeed)
            SubTxID.LOCK_TX] ∧
      (LoadSharedParameters refusingEnv
          { tx := (LoadSharedParameters sampleEnv freshFrame).tx, b := LockTxBuilder.new 100 1,
            calls := [] }).b.m_SharedBlindingFactor =
        (LoadSharedParameters sampleEnv freshFrame).b.m_SharedBlindingFactor ∧
      (LoadSharedParameters refusingEnv
          { tx := (LoadSharedParameters sampleEnv freshFrame).tx, b := LockTxBuilder.new 100 1,
            calls := [] }).b.m_SharedSeed =
        (LoadSharedParameters sampleEnv freshFrame).b.m_SharedSeed ∧
      (LoadSharedParameters refusingEnv
          { tx := (LoadSharedParameters sampleEnv freshFrame).tx, b := LockTxBuilder.new 100 1,
            calls := [] }).b.m_SharedCoin.m_ID =
        (LoadSharedParameters sampleEnv freshFrame).b.m_SharedCoin.m_ID ∧
      (LoadSharedParameters refusingEnv
          { tx := (LoadSharedParameters sampleEnv freshFrame).tx, b := LockTxBuilder.new 100 1,
            calls := [] }).tx =
        (LoadSharedParameters sampleEnv freshFrame).tx ∧
      (LoadSharedParameters sampleEnv freshFrame).b.m_Offset =
        freshFrame.b.m_Offset +
          -(LoadSharedParameters sampleEnv freshFrame).b.m_SharedBlindingFactor ∧
      (LoadSharedParameters refusingEnv
          { tx := (LoadSharedParameters sampleEnv freshFrame).tx, b := LockTxBuilder.new 100 1,
            calls := [] }).b.m_Offset =
        (LockTxBuilder.new 100 1 : LockTxBuilder Int Int).m_Offset +
          -(LoadSharedParameters sampleEnv freshFrame).b.m_SharedBlindingFactor :=
  C12_reload_shared_parameters sampleEnv refusingEnv freshFrame (LockTxBuilder.new 100 1) []
    (by decide)

/-- C13 (as the code has it). Each of `SendInvitation`, `SendBulletProofPart2`
and `SendBulletProofPart3` calls `OnFailed(FailedToSendParameters, false)`
right after the send exactly when the gateway returned false. For an
`UpdateImpl` call whose send was refused, the failure is reported and is not
terminal (the state is not `Failed`), but the state is advanced all the same
(to `Invitation`, `SharedUTXOProofPart2` or `SharedUTXOProofPart3`), and the
next call with nothing written in between does not send the refused message
again. -/
theorem C13_refused_send [CommRing Sc] [AddCommGroup Pt] [Module Sc Pt]
    (env1 env2 : Env Sc Pt) (t t1 : Tx Sc Pt) (m : SetTxParameter Sc Pt)
    (hfirst : UpdateImpl env1 t = Flow.done t1) (hsent : t1.sent = t.sent ++ [m])
    (hrefused : env1.SendTxParameters m = false) :
    (∀ (t0 : Tx Sc Pt) (b : LockTxBuilder Sc Pt) (s : Bool),
      (SendInvitation env1 t0 b s = Flow.thrown t0 ∨
        ∃ a c t2, SendInvitation env1 t0 b s = Flow.next t2 ∧
          t2.trace = t0.trace ++ Effect.send (SendInvitation.msg env1 b s a c) ::
            (if env1.SendTxParameters (SendInvitation.msg env1 b s a c) then []
              else [Effect.onFailed TxFailureReason.FailedToSendParameters false])) ∧
      (SendBulletProofPart2 env1 t0 b s).trace =
        t0.trace ++ Effect.send (SendBulletProofPart2.msg env1 b s) ::
          (if env1.SendTxParameters (SendBulletProofPart2.msg env1 b s) then []
            else [Effect.onFailed TxFailureReason.FailedToSendParameters false]) ∧
      (SendBulletProofPart3 env1 t0 b s).trace =
        t0.trace ++ Effect.send (SendBulletProofPart3.msg b s) ::
          (if env1.SendTxParameters (SendBulletProofPart3.msg b s) then []
            else [Effect.onFailed TxFailureReason.FailedToSendParameters false])) ∧
      (∃ w, t1.trace = t.trace ++ w ∧
        Effect.onFailed TxFailureReason.FailedToSendParameters false ∈ w) ∧
      (lockState t1 = State.Invitation ∨ lockState t1 = State.SharedUTXOProofPart2 ∨
        lockState t1 = State.SharedUTXOProofPart3) ∧
      lockState t1 ≠ lockState t ∧
      ∃ new, (UpdateImpl env2 t1).val.sent = t1.sent ++ new ∧ m ∉ new := by
  have hval : (UpdateImpl env1 t).val = t1 := by rw [hfirst]; rfl
  obtain ⟨t2, s1, isSender, hb, hv, -, hstep⟩ :=
    UpdateImpl_advance_of_sent env1 t m (hval ▸ hsent)
  have hs1 : lockState t1 = s1 := by
    rw [← hval, hv.benign.lockState_eq]
    exact lockState_SetState _ _
  refine ⟨?_, ?_, ?_, ?_, next_call_does_not_resend env1 env2 t t1 m hfirst hsent⟩
  · intro t0 b s
    refine ⟨?_, sendOrFail_trace env1 t0 _, sendOrFail_trace env1 t0 _⟩
    rcases SendInvitation_cases env1 t0 b s with h | ⟨a, c, h⟩
    · exact Or.inl h
    · exact Or.inr ⟨a, c, _, h, sendOrFail_trace env1 t0 _⟩
  · obtain ⟨-, ⟨w, hw, -⟩, -⟩ := hb
    obtain ⟨-, w2, hw2, -⟩ := hv
    refine ⟨w ++ [Effect.send m, Effect.onFailed TxFailureReason.FailedToSendParameters false,
      Effect.setParameter TxParameterID.State (Value.state s1) SubTxID.LOCK_TX] ++ w2, ?_,
      by simp⟩
    rw [← hval, hw2]
    simp [Tx.SetState, Tx.SetParameter, sendOrFail_trace, hw, hrefused]
  · rw [hs1]
    rcases hstep with ⟨-, h⟩ | ⟨-, h⟩ | ⟨-, h⟩
    · exact Or.inl h
    · exact Or.inr (Or.inl h)
    · exact Or.inr (Or.inr h)
  · rw [hs1]
    rcases hstep with ⟨h1, h2⟩ | ⟨h1 | h1, h2⟩ | ⟨h1, h2⟩ <;> rw [h1, h2] <;> decide

/-- C13, witness: the initiator's first update with a gateway that refuses
the invitation. -/
theorem C13_refused_send_witness :
    (∀ (t0 : Tx Int Int) (b : LockTxBuilder Int Int) (s : Bool),
      (SendInvitation refusingEnv t0 b s = Flow.thrown t0 ∨
        ∃ a c t2, SendInvitation refusingEnv t0 b s = Flow.next t2 ∧
          t2.trace = t0.trace ++ Effect.send (SendInvitation.msg refusingEnv b s a c) ::
            (if refusingEnv.SendTxParameters (SendInvitation.msg refusingEnv b s a c) then []
              else [Effect.onFailed TxFailureReason.FailedToSendParameters false])) ∧
      (SendBulletProofPart2 refusingEnv t0 b s).trace =
        t0.trace ++ Effect.send (SendBulletProofPart2.msg refusingEnv b s) ::
          (if refusingEnv.SendTxParameters (SendBulletProofPart2.msg refusingEnv b s) then []
            else [Effect.onFailed TxFailureReason.FailedToSendParameters false]) ∧
      (SendBulletProofPart3 refusingEnv t0 b s).trace =
        t0.trace ++ Effect.send (SendBulletProofPart3.msg b s) ::
          (if refusingEnv.SendTxParameters (SendBulletProofPart3.msg b s) then []
            else [Effect.onFailed TxFailureReason.FailedToSendParameters false])) ∧
      (∃ w, (UpdateImpl refusingEnv (⟨initiatorStore, []⟩ : Tx Int Int)).val.trace =
          (⟨initiatorStore, []⟩ : Tx Int Int).trace ++ w ∧
        Effect.onFailed TxFailureReason.FailedToSendParameters false ∈ w) ∧
      (lockState (UpdateImpl refusingEnv (⟨initiatorStore, []⟩ : Tx Int Int)).val =
          State.Invitation ∨
        lockState (UpdateImpl refusingEnv (⟨initiatorStore, []⟩ : Tx Int Int)).val =
          State.SharedUTXOProofPart2 ∨
        lockState (UpdateImpl refusingEnv (⟨initiatorStore, []⟩ : Tx Int Int)).val =
          State.SharedUTXOProofPart3) ∧
      lockState (UpdateImpl refusingEnv (⟨initiatorStore, []⟩ : Tx Int Int)).val ≠
        lockState (⟨initiatorStore, []⟩ : Tx Int Int) ∧
      ∃ new, (UpdateImpl sampleEnv
          (UpdateImpl refusingEnv (⟨initiatorStore, []⟩ : Tx Int Int)).val).val.sent =
        (UpdateImpl refusingEnv (⟨initiatorStore, []⟩ : Tx Int Int)).val.sent ++ new ∧
        SendInvitation.msg refusingEnv (LockTxBuilder.new 100 1) true 5 0 ∉ new :=
  C13_refused_send refusingEnv sampleEnv ⟨initiatorStore, []⟩
    (UpdateImpl refusingEnv (⟨initiatorStore, []⟩ : Tx Int Int)).val
    (SendInvitation.msg refusingEnv (LockTxBuilder.new 100 1) true 5 0) rfl (by decide) rfl

/-- C13, counterexample: the gateway refuses the initiator's invitation; the
failure is reported, the state becomes `Invitation` all the same, and the next
update, whether the gateway then accepts or refuses, sends nothing: the
invitation is not sent again. -/
theorem C13_counterexample :
    (UpdateImpl refusingEnv (⟨initiatorStore, []⟩ : Tx Int Int)).val.sent =
        [SendInvitation.msg refusingEnv (LockTxBuilder.new 100 1) true 5 0] ∧
      refusingEnv.SendTxParameters
        (SendInvitation.msg refusingEnv (LockTxBuilder.new 100 1) true 5 0) = false ∧
      Effect.onFailed TxFailureReason.FailedToSendParameters false ∈
        (UpdateImpl refusingEnv (⟨initiatorStore, []⟩ : Tx Int Int)).val.trace ∧
      (UpdateImpl sampleEnv
          ⟨(UpdateImpl refusingEnv (⟨initiatorStore, []⟩ : Tx Int Int)).val.store, []⟩).val.sent =
        [] ∧
      (UpdateImpl refusingEnv
          ⟨(UpdateImpl refusingEnv (⟨initiatorStore, []⟩ : Tx Int Int)).val.store, []⟩).val.sent =
        [] := by
  refine ⟨by decide, rfl, by decide, by decide, by decide⟩

/-- C14. `calcChange` reports exactly one value: with `sum` the sum of the
selected coins' values modulo `2^64`, it is 0 when `sum < amount` and
`sum - amount` otherwise. The reported change never exceeds `sum`, and when
the coins cover the amount, change plus amount is `sum`: the subtraction does
not wrap around. -/
theorem C14_calcChange (selectCoins : Amount → Bool → List Coin) (amount : Amount) :
    WalletClient.calcChange selectCoins amount =
        [if ((selectCoins amount false).map fun c => c.m_ID.m_Value).sum % 2 ^ 64 < amount
          then 0
          else ((selectCoins amount false).map fun c => c.m_ID.m_Value).sum % 2 ^ 64 - amount] ∧
      ∀ change ∈ WalletClient.calcChange selectCoins amount,
        change ≤ ((selectCoins amount false).map fun c => c.m_ID.m_Value).sum % 2 ^ 64 ∧
          (amount ≤ ((selectCoins amount false).map fun c => c.m_ID.m_Value).sum % 2 ^ 64 →
            change + amount =
              ((selectCoins amount false).map fun c => c.m_ID.m_Value).sum % 2 ^ 64) := by
  have hsum := foldl_add64 (selectCoins amount false) 0
  simp only [Nat.zero_mod, Nat.zero_add] at hsum
  generalize hS : ((selectCoins amount false).map fun c => c.m_ID.m_Value).sum % 2 ^ 64 = S
    at hsum ⊢
  have hlt : S < 2 ^ 64 := hS ▸ Nat.mod_lt _ (by norm_num)
  have hcalc : WalletClient.calcChange selectCoins amount =
      [if S < amount then 0 else S - amount] := by
    unfold WalletClient.calcChange
    simp only [hsum]
    by_cases h : S < amount
    · simp only [h, if_true]
    · have hle : amount ≤ S := Nat.le_of_not_lt h
      have hmod : amount % 2 ^ 64 = amount := Nat.mod_eq_of_lt (Nat.lt_of_le_of_lt hle hlt)
      have hsub : S + 2 ^ 64 - amount = (S - amount) + 2 ^ 64 :=
        (Nat.sub_add_comm hle)
      simp only [h, if_false, sub64, hmod, hsub, Nat.add_mod_right]
      rw [Nat.mod_eq_of_lt (Nat.lt_of_le_of_lt (Nat.sub_le S amount) hlt)]
  rw [hcalc]
  refine ⟨rfl, ?_⟩
  intro change hc
  simp only [List.mem_singleton] at hc
  subst hc
  by_cases h : S < amount
  · simp only [h, if_true]
    exact ⟨Nat.zero_le S, fun hle => absurd h (Nat.not_lt.mpr hle)⟩
  · simp only [h, if_false]
    exact ⟨Nat.sub_le S amount, fun hle => Nat.sub_add_cancel hle⟩

end Beam.Wallet
